import Mathlib

/-!
Shallow embedding of the CodexMonitor supervisor core
(`src-tauri/src/shared/supervisor_core` and its submodules) together with
theorems settling the specification claims about it.

Conventions used throughout:
* Rust `i64` timestamps are modelled as `Int`; `i64::saturating_sub` is
  modelled by exact subtraction clamped to the `i64` range.
* Rust `BTreeMap<String, V>` is modelled as an association list
  `List (String × V)` with insert-or-replace semantics.
* `serde_json::Value` is modelled by the inductive `JsonVal`.
* Fallible Rust functions returning `Result<T, String>` are modelled with
  `Except String T`.
-/

namespace CodexMonitor

mutual

/-- Model of `serde_json::Value`: JSON trees with integer numerals
(the supervisor core only ever produces integer ids and booleans).
Arrays and objects are given by the mutual types `JsonArr` and `JsonObj`,
which are lists in all but name. -/
inductive JsonVal where
  | null : JsonVal
  | bool : Bool → JsonVal
  | num : Int → JsonVal
  | str : String → JsonVal
  | arr : JsonArr → JsonVal
  | obj : JsonObj → JsonVal
  deriving DecidableEq

/-- The element list of a JSON array. -/
inductive JsonArr where
  | nil : JsonArr
  | cons : JsonVal → JsonArr → JsonArr
  deriving DecidableEq

/-- The field list of a JSON object. -/
inductive JsonObj where
  | nil : JsonObj
  | cons : String → JsonVal → JsonObj → JsonObj
  deriving DecidableEq

end

/-- Build a `JsonArr` from a list of values. -/
def JsonArr.ofList : List JsonVal → JsonArr
  | [] => .nil
  | x :: rest => .cons x (JsonArr.ofList rest)

/-- Build a `JsonObj` from a list of fields. -/
def JsonObj.ofList : List (String × JsonVal) → JsonObj
  | [] => .nil
  | (k, v) :: rest => .cons k v (JsonObj.ofList rest)

/-- Lookup of the first field with the given key. -/
def JsonObj.find? : JsonObj → String → Option JsonVal
  | .nil, _ => none
  | .cons k v rest, key => if k = key then some v else JsonObj.find? rest key

/-- `json!` object literal helper. -/
def jobj (fields : List (String × JsonVal)) : JsonVal :=
  .obj (JsonObj.ofList fields)

/-- `json!` array literal helper. -/
def jarr (elems : List JsonVal) : JsonVal :=
  .arr (JsonArr.ofList elems)

namespace JsonVal

/-- `Value::get(key)` on objects. -/
def getKey : JsonVal → String → Option JsonVal
  | .obj fields, key => fields.find? key
  | _, _ => none

/-- `Value::as_str`. -/
def asStr : JsonVal → Option String
  | .str s => some s
  | _ => none

/-- `Value::as_i64` on the integral model (every `num` is integral). -/
def asInt : JsonVal → Option Int
  | .num n => some n
  | _ => none

/-- `Value::as_bool`. -/
def asBool : JsonVal → Option Bool
  | .bool b => some b
  | _ => none

/-- JSON string escaping as performed by `serde_json` for the escapes the
supervisor can produce. -/
def escapeChar (c : Char) : String :=
  if c = '"' then "\\\""
  else if c = '\\' then "\\\\"
  else if c = '\n' then "\\n"
  else if c = '\t' then "\\t"
  else if c = '\r' then "\\r"
  else String.singleton c

def escapeStr (s : String) : String :=
  String.join (s.data.map escapeChar)

mutual

/-- `Value::to_string()`: compact JSON serialization. -/
def render : JsonVal → String
  | .null => "null"
  | .bool true => "true"
  | .bool false => "false"
  | .num n => toString n
  | .str s => "\"" ++ escapeStr s ++ "\""
  | .arr xs => "[" ++ renderList xs ++ "]"
  | .obj fields => "\x7b" ++ renderObj fields ++ "\x7d"

def renderList : JsonArr → String
  | .nil => ""
  | .cons x .nil => render x
  | .cons x rest => render x ++ "," ++ renderList rest

def renderObj : JsonObj → String
  | .nil => ""
  | .cons k v .nil => "\"" ++ escapeStr k ++ "\":" ++ render v
  | .cons k v rest => "\"" ++ escapeStr k ++ "\":" ++ render v ++ "," ++ renderObj rest

end

end JsonVal

/-- `str::trim`, modelled on the character list (structurally recursive so
that proofs can evaluate it; like `Char.isWhitespace` it covers the ASCII
whitespace the supervisor actually handles). -/
def rustTrim (s : String) : String :=
  ⟨((s.data.dropWhile Char.isWhitespace).reverse.dropWhile Char.isWhitespace).reverse⟩

/-- `str::to_lowercase`, modelled on the character list (ASCII folding, as
in `Char.toLower`). -/
def rustLower (s : String) : String :=
  ⟨s.data.map Char.toLower⟩

deriving instance DecidableEq for Except

/-- `Option<String>` serialized into a JSON field (`json!` with an
`Option<String>` serializes `None` as `null`). -/
def optStrJson : Option String → JsonVal
  | some s => .str s
  | none => .null

/-! ## Association-list model of `BTreeMap<String, V>` -/

/-- `BTreeMap::insert` (replace the binding if the key is present,
otherwise add it). -/
def upsertA {α : Type} (k : String) (v : α) : List (String × α) → List (String × α)
  | [] => [(k, v)]
  | (k0, v0) :: rest => if k0 = k then (k, v) :: rest else (k0, v0) :: upsertA k v rest

/-- `BTreeMap::get`. -/
def lookupA {α : Type} (k : String) : List (String × α) → Option α
  | [] => none
  | (k0, v0) :: rest => if k0 = k then some v0 else lookupA k rest

/-- `BTreeMap::remove` (drop the binding for the key, if present). -/
def removeA {α : Type} (k : String) : List (String × α) → List (String × α)
  | [] => []
  | (k0, v0) :: rest => if k0 = k then rest else (k0, v0) :: removeA k rest

/-- `BTreeMap::get_mut` followed by a field update: rewrite the binding for
the key in place, if present. -/
def modifyA {α : Type} (k : String) (f : α → α) : List (String × α) → List (String × α)
  | [] => []
  | (k0, v0) :: rest => if k0 = k then (k0, f v0) :: rest else (k0, v0) :: modifyA k f rest

theorem mem_upsertA {α : Type} {k : String} {v : α} {m : List (String × α)}
    {p : String × α} (h : p ∈ upsertA k v m) : p = (k, v) ∨ p ∈ m := by
  induction m with
  | nil =>
    simp only [upsertA, List.mem_singleton] at h
    exact Or.inl h
  | cons hd tl ih =>
    simp only [upsertA] at h
    by_cases hk : hd.1 = k
    · rw [if_pos hk] at h
      rcases List.mem_cons.mp h with h | h
      · exact Or.inl h
      · exact Or.inr (List.mem_cons_of_mem _ h)
    · rw [if_neg hk] at h
      rcases List.mem_cons.mp h with h | h
      · exact Or.inr (h ▸ List.mem_cons_self _ _)
      · rcases ih h with h | h
        · exact Or.inl h
        · exact Or.inr (List.mem_cons_of_mem _ h)

theorem lookupA_mem {α : Type} {k : String} {v : α} {m : List (String × α)}
    (h : lookupA k m = some v) : (k, v) ∈ m := by
  induction m with
  | nil => simp [lookupA] at h
  | cons hd tl ih =>
    obtain ⟨k0, v0⟩ := hd
    simp only [lookupA] at h
    by_cases hk : k0 = k
    · subst hk
      rw [if_pos rfl] at h
      cases h
      exact List.mem_cons_self _ _
    · rw [if_neg hk] at h
      exact List.mem_cons_of_mem _ (ih h)

theorem lookupA_upsertA_self {α : Type} (k : String) (v : α) (m : List (String × α)) :
    lookupA k (upsertA k v m) = some v := by
  induction m with
  | nil => simp [upsertA, lookupA]
  | cons hd tl ih =>
    obtain ⟨k0, v0⟩ := hd
    simp only [upsertA]
    by_cases hk : k0 = k
    · rw [if_pos hk]
      simp [lookupA]
    · rw [if_neg hk]
      simp only [lookupA, if_neg hk]
      exact ih

theorem lookupA_upsertA_ne {α : Type} {k k' : String} (hne : k' ≠ k)
    (v : α) (m : List (String × α)) :
    lookupA k' (upsertA k v m) = lookupA k' m := by
  induction m with
  | nil =>
    simp only [upsertA, lookupA]
    rw [if_neg (fun h : k = k' => hne h.symm)]
  | cons hd tl ih =>
    obtain ⟨k0, v0⟩ := hd
    simp only [upsertA]
    by_cases hk : k0 = k
    · rw [if_pos hk]
      simp only [lookupA]
      rw [if_neg (fun h : k = k' => hne h.symm), if_neg (fun h : k0 = k' => hne (hk ▸ h).symm)]
    · rw [if_neg hk]
      simp only [lookupA]
      by_cases hk' : k0 = k'
      · rw [if_pos hk', if_pos hk']
      · rw [if_neg hk', if_neg hk']
        exact ih

/-! ## Supervisor core data model (`shared/supervisor_core.rs`) -/

/-- `SupervisorHealth`. -/
inductive SupervisorHealth where
  | healthy
  | stale
  | disconnected
  deriving DecidableEq

instance : Inhabited SupervisorHealth := ⟨.healthy⟩

/-- `SupervisorThreadStatus`. -/
inductive SupervisorThreadStatus where
  | idle
  | running
  | waitingInput
  | failed
  | completed
  | stalled
  deriving DecidableEq

instance : Inhabited SupervisorThreadStatus := ⟨.idle⟩

/-- `SupervisorJobStatus` of the rich supervisor-core variant used by
`loop.rs` and `service.rs`.  The enum definition itself is absent from the
sources; the `queued` and `waitingForUser` members are modelled from the
spec (§3 Job: `status∈{Pending,Queued,Running,WaitingForUser,Completed,Failed}`). -/
inductive SupervisorJobStatus where
  | pending
  | queued
  | running
  | waitingForUser
  | completed
  | failed
  deriving DecidableEq

instance : Inhabited SupervisorJobStatus := ⟨.pending⟩

/-- `SupervisorJobStatus::is_terminal`, used by `loop.rs` job matching.
Modelled from the spec: the lifecycle of §3/§4.2 makes `Completed` and
`Failed` the terminal statuses. -/
def SupervisorJobStatus.isTerminal : SupervisorJobStatus → Bool
  | .completed => true
  | .failed => true
  | _ => false

/-- `SupervisorSignalKind`. -/
inductive SupervisorSignalKind where
  | needsApproval
  | failed
  | completed
  | stalled
  | disconnected
  deriving DecidableEq

/-- `SupervisorChatMessageRole`.  Modelled from the spec (§3 ChatMessage:
`role∈{User,System}`); the definition is absent from the sources but its
use in `loop.rs`/`service.rs` fixes the same two members. -/
inductive SupervisorChatMessageRole where
  | user
  | system
  deriving DecidableEq

/-- `SupervisorWorkspaceState`. -/
structure SupervisorWorkspaceState where
  id : String
  name : String := ""
  connected : Bool := false
  current_task : Option String := none
  last_activity_at_ms : Option Int := none
  next_expected_step : Option String := none
  blockers : List String := []
  health : SupervisorHealth := .healthy
  active_thread_id : Option String := none
  deriving DecidableEq

/-- `SupervisorThreadState`. -/
structure SupervisorThreadState where
  id : String
  workspace_id : String
  name : Option String := none
  status : SupervisorThreadStatus := .idle
  current_task : Option String := none
  last_activity_at_ms : Option Int := none
  next_expected_step : Option String := none
  blockers : List String := []
  active_turn_id : Option String := none
  deriving DecidableEq

/-- `SupervisorSubtaskEvent` of the rich variant (fields per spec §3
SubtaskEvent and the constructions in `loop.rs`). -/
structure SupervisorSubtaskEvent where
  id : String
  kind : String
  message : String
  created_at_ms : Int
  metadata : JsonVal := .null
  deriving DecidableEq

/-- `SupervisorJobState` of the rich variant used by `loop.rs` and
`service.rs`.  The struct definition is absent from the sources; the field
list is modelled from the spec (§3 Job) and matches every field accessed in
`loop.rs`/`service.rs`. -/
structure SupervisorJobState where
  id : String
  workspace_id : String
  thread_id : Option String := none
  dedupe_key : Option String := none
  description : String := ""
  status : SupervisorJobStatus := .pending
  requested_at_ms : Int := 0
  started_at_ms : Option Int := none
  completed_at_ms : Option Int := none
  error : Option String := none
  route_kind : Option String := none
  route_reason : Option String := none
  route_target : Option String := none
  route_fallback : Option String := none
  model : Option String := none
  effort : Option String := none
  access_mode : Option String := none
  waiting_request_id : Option JsonVal := none
  waiting_question_ids : List String := []
  recent_events : List SupervisorSubtaskEvent := []
  deriving DecidableEq

/-- `SupervisorSignal`. -/
structure SupervisorSignal where
  id : String
  kind : SupervisorSignalKind
  workspace_id : Option String := none
  thread_id : Option String := none
  job_id : Option String := none
  message : String := ""
  created_at_ms : Int
  acknowledged_at_ms : Option Int := none
  context : JsonVal := .null
  deriving DecidableEq

/-- `SupervisorActivityEntry`. -/
structure SupervisorActivityEntry where
  id : String
  kind : String
  message : String
  created_at_ms : Int
  workspace_id : Option String := none
  thread_id : Option String := none
  needs_input : Bool := false
  metadata : JsonVal := .null
  deriving DecidableEq

/-- `SupervisorOpenQuestion`. -/
structure SupervisorOpenQuestion where
  id : String
  workspace_id : String
  thread_id : String
  question : String
  created_at_ms : Int
  resolved_at_ms : Option Int := none
  context : JsonVal := .null
  deriving DecidableEq

/-- `SupervisorPendingApproval`. -/
structure SupervisorPendingApproval where
  request_key : String
  workspace_id : String
  thread_id : Option String := none
  turn_id : Option String := none
  item_id : Option String := none
  request_id : String
  method : String
  params : JsonVal := .null
  created_at_ms : Int
  resolved_at_ms : Option Int := none
  deriving DecidableEq

/-- `SupervisorChatMessage` (fields per spec §3 ChatMessage and the
constructions in `loop.rs`/`service.rs`). -/
structure SupervisorChatMessage where
  id : String
  role : SupervisorChatMessageRole
  text : String
  created_at_ms : Int
  deriving DecidableEq

/-- `SupervisorState` of the rich variant: the containers of
`shared/supervisor_core.rs` plus the `chat_history` container used by
`loop.rs` (modelled from spec §3 SupervisorState). -/
structure SupervisorState where
  workspaces : List (String × SupervisorWorkspaceState) := []
  threads : List (String × SupervisorThreadState) := []
  jobs : List (String × SupervisorJobState) := []
  signals : List SupervisorSignal := []
  activity_feed : List SupervisorActivityEntry := []
  open_questions : List (String × SupervisorOpenQuestion) := []
  pending_approvals : List (String × SupervisorPendingApproval) := []
  chat_history : List SupervisorChatMessage := []
  deriving DecidableEq

instance : Inhabited SupervisorState := ⟨{}⟩

/-- `DEFAULT_ACTIVITY_FEED_LIMIT`. -/
def DEFAULT_ACTIVITY_FEED_LIMIT : Nat := 200

/-- `DEFAULT_CHAT_HISTORY_LIMIT`.  Modelled from the spec: the constant is
absent from the sources; §3/§6 give `CHAT_HISTORY_LIMIT` (500). -/
def DEFAULT_CHAT_HISTORY_LIMIT : Nat := 500

/-- `SupervisorStateUpdate`. -/
inductive SupervisorStateUpdate where
  | upsertWorkspace (workspace : SupervisorWorkspaceState)
  | removeWorkspace (workspace_id : String)
  | upsertThread (thread : SupervisorThreadState)
  | removeThread (workspace_id : String) (thread_id : String)
  | upsertJob (job : SupervisorJobState)
  | removeJob (job_id : String)
  | updateJobStatus (job_id : String) (status : SupervisorJobStatus)
      (at_ms : Int) (error : Option String)
  | pushSignal (signal : SupervisorSignal)
  | ackSignal (signal_id : String) (acknowledged_at_ms : Int)
  | pushActivity (entry : SupervisorActivityEntry) (max_items : Nat)
  | upsertOpenQuestion (question : SupervisorOpenQuestion)
  | resolveOpenQuestion (question_id : String) (resolved_at_ms : Int)
  | upsertPendingApproval (approval : SupervisorPendingApproval)
  | resolvePendingApproval (request_key : String) (resolved_at_ms : Int)
  | pushChatMessage (message : SupervisorChatMessage) (max_items : Nat)

/-- `thread_map_key`. -/
def thread_map_key (workspace_id thread_id : String) : String :=
  workspace_id ++ ":" ++ thread_id

/-- Remove the first element satisfying the predicate, if any: the
`iter().position(..)` / `remove(idx)` pattern of the reducer's push arms. -/
def removeFirstBy {α : Type} (p : α → Bool) : List α → List α
  | [] => []
  | x :: rest => if p x then rest else x :: removeFirstBy p rest

/-- The dedupe-prepend step of the `PushSignal` arm: remove the first entry
with the same id, then insert at the front. -/
def pushSignalList (signals : List SupervisorSignal) (signal : SupervisorSignal) :
    List SupervisorSignal :=
  signal :: removeFirstBy (fun item => item.id == signal.id) signals

/-- The dedupe-prepend-truncate step of the `PushActivity` arm. -/
def pushActivityList (feed : List SupervisorActivityEntry)
    (entry : SupervisorActivityEntry) (max_items : Nat) :
    List SupervisorActivityEntry :=
  let feed := entry :: removeFirstBy (fun item => item.id == entry.id) feed
  let limit := if max_items = 0 then DEFAULT_ACTIVITY_FEED_LIMIT else max_items
  if feed.length > limit then feed.take limit else feed

/-- The `PushChatMessage` step.  Modelled from the spec: the arm is absent
from the reducer sources; §4.2 gives "PushChatMessage (dedupe by id,
prepend, truncate)". -/
def pushChatList (history : List SupervisorChatMessage)
    (message : SupervisorChatMessage) (max_items : Nat) :
    List SupervisorChatMessage :=
  let history := message :: removeFirstBy (fun item => item.id == message.id) history
  if history.length > max_items then history.take max_items else history

/-- The `AckSignal` step: set the acknowledgement timestamp on the first
signal with the given id (`iter_mut().find(..)`). -/
def ackFirstSignal (signals : List SupervisorSignal) (signal_id : String)
    (acknowledged_at_ms : Int) : List SupervisorSignal :=
  match signals with
  | [] => []
  | item :: rest =>
    if item.id = signal_id then
      { item with acknowledged_at_ms := some acknowledged_at_ms } :: rest
    else
      item :: ackFirstSignal rest signal_id acknowledged_at_ms

/-- `apply_update`: the pure state reducer.  In the `UpdateJobStatus` arm
the source matches only the statuses of the old job enum; the behaviour on
`Queued`/`WaitingForUser` (leave both timestamps unchanged) is modelled
from the spec, which lists no timestamp adjustment for them (§4.2). -/
def applyUpdate (state : SupervisorState) : SupervisorStateUpdate → SupervisorState
  | .upsertWorkspace workspace =>
    { state with workspaces := upsertA workspace.id workspace state.workspaces }
  | .removeWorkspace workspace_id =>
    { state with
      workspaces := removeA workspace_id state.workspaces
      threads := state.threads.filter (fun p => p.2.workspace_id ≠ workspace_id)
      jobs := state.jobs.filter (fun p => p.2.workspace_id ≠ workspace_id)
      open_questions :=
        state.open_questions.filter (fun p => p.2.workspace_id ≠ workspace_id)
      pending_approvals :=
        state.pending_approvals.filter (fun p => p.2.workspace_id ≠ workspace_id) }
  | .upsertThread thread =>
    { state with
      threads := upsertA (thread_map_key thread.workspace_id thread.id) thread state.threads }
  | .removeThread workspace_id thread_id =>
    { state with
      threads := removeA (thread_map_key workspace_id thread_id) state.threads
      jobs := state.jobs.filter (fun p =>
        ¬(p.2.workspace_id = workspace_id ∧ p.2.thread_id = some thread_id))
      open_questions := state.open_questions.filter (fun p =>
        ¬(p.2.workspace_id = workspace_id ∧ p.2.thread_id = thread_id))
      pending_approvals := state.pending_approvals.filter (fun p =>
        ¬(p.2.workspace_id = workspace_id ∧ p.2.thread_id = some thread_id)) }
  | .upsertJob job =>
    { state with jobs := upsertA job.id job state.jobs }
  | .removeJob job_id =>
    { state with jobs := removeA job_id state.jobs }
  | .updateJobStatus job_id status at_ms error =>
    { state with
      jobs := modifyA job_id (fun job =>
        let job := { job with status := status }
        let job :=
          match status with
          | .running => { job with started_at_ms := some at_ms, completed_at_ms := none }
          | .completed => { job with completed_at_ms := some at_ms }
          | .failed => { job with completed_at_ms := some at_ms }
          | .pending => { job with started_at_ms := none, completed_at_ms := none }
          | _ => job
        { job with error := error }) state.jobs }
  | .pushSignal signal =>
    { state with signals := pushSignalList state.signals signal }
  | .ackSignal signal_id acknowledged_at_ms =>
    { state with signals := ackFirstSignal state.signals signal_id acknowledged_at_ms }
  | .pushActivity entry max_items =>
    { state with activity_feed := pushActivityList state.activity_feed entry max_items }
  | .upsertOpenQuestion question =>
    { state with open_questions := upsertA question.id question state.open_questions }
  | .resolveOpenQuestion question_id resolved_at_ms =>
    { state with
      open_questions := modifyA question_id
        (fun q => { q with resolved_at_ms := some resolved_at_ms }) state.open_questions }
  | .upsertPendingApproval approval =>
    { state with
      pending_approvals := upsertA approval.request_key approval state.pending_approvals }
  | .resolvePendingApproval request_key resolved_at_ms =>
    { state with
      pending_approvals := modifyA request_key
        (fun a => { a with resolved_at_ms := some resolved_at_ms }) state.pending_approvals }
  | .pushChatMessage message max_items =>
    { state with chat_history := pushChatList state.chat_history message max_items }

/-! ## Supervisor loop (`shared/supervisor_core/loop.rs`) -/

/-- `SUPERVISOR_SUBTASK_EVENT_LIMIT`. -/
def SUPERVISOR_SUBTASK_EVENT_LIMIT : Nat := 24

/-- `chars().take(n).collect()`, modelled on the character list. -/
def takeChars (s : String) (n : Nat) : String :=
  ⟨s.data.take n⟩

/-- `summarize_text`. -/
def summarizeText (value : String) (max_chars : Nat) : String :=
  let trimmed := rustTrim value
  if trimmed.length ≤ max_chars then trimmed
  else takeChars trimmed max_chars ++ "..."

/-- `str::eq_ignore_ascii_case` (both sides folded on ASCII letters only,
matching Lean `Char.toLower`). -/
def eqIgnoreAsciiCase (a b : String) : Bool :=
  rustLower a == rustLower b

/-- `request_value_key`. -/
def request_value_key (workspace_id : String) (request_id : JsonVal) : String :=
  let request_id_value :=
    match (request_id.asStr.map rustTrim).filter (fun v => !v.isEmpty) with
    | some v => v
    | none =>
      match request_id.asInt with
      | some n => toString n
      | none => request_id.render
  workspace_id ++ ":" ++ request_id_value

/-- `SupervisorEvent` of the rich variant consumed by `loop.rs`.  The
`events.rs` present in the sources lacks the `UserInputRequested` variant
and the `item_content` fields; those are modelled from the spec (§4.1) and
from the destructuring patterns in `loop.rs`. -/
inductive SupervisorEvent where
  | turnStarted (workspace_id thread_id turn_id : String) (task : Option String)
      (received_at_ms : Int)
  | turnCompleted (workspace_id thread_id turn_id : String) (task : Option String)
      (received_at_ms : Int)
  | itemStarted (workspace_id thread_id item_id : String) (item_type : Option String)
      (task : Option String) (item_content : Option String) (received_at_ms : Int)
  | itemCompleted (workspace_id thread_id item_id : String) (item_type : Option String)
      (task : Option String) (item_content : Option String) (received_at_ms : Int)
  | userInputRequested (workspace_id request_key request_id : String)
      (request_id_value : JsonVal) (thread_id turn_id item_id : Option String)
      (question : String) (question_ids : List String) (params : JsonVal)
      (received_at_ms : Int)
  | approvalRequested (workspace_id request_key request_id method : String)
      (thread_id turn_id item_id : Option String) (params : JsonVal)
      (received_at_ms : Int)
  | error (workspace_id : String) (thread_id turn_id : Option String)
      (message : String) (will_retry : Bool) (received_at_ms : Int)

/-- `SupervisorLoopConfig` (defaults per its `Default` impl). -/
structure SupervisorLoopConfig where
  stale_after_ms : Int := 90000
  disconnected_after_ms : Int := 300000
  activity_feed_limit : Nat := DEFAULT_ACTIVITY_FEED_LIMIT
  deriving DecidableEq

instance : Inhabited SupervisorLoopConfig := ⟨{}⟩

/-- `SupervisorWorkspaceHealthInput`. -/
structure SupervisorWorkspaceHealthInput where
  workspace_id : String
  workspace_name : Option String := none
  connected : Bool
  deriving DecidableEq

/-- `SupervisorLoop` (its owned state). -/
structure SupervisorLoop where
  state : SupervisorState := {}
  config : SupervisorLoopConfig := {}
  workspace_last_event_at_ms : List (String × Int) := []
  deriving DecidableEq

instance : Inhabited SupervisorLoop := ⟨{}⟩

/-- The `i64` range bounds (−2⁶³ and 2⁶³ − 1) used to model
`i64::saturating_sub`. -/
def i64Min : Int := -9223372036854775808

def i64Max : Int := 9223372036854775807

/-- `i64::saturating_sub` on the unbounded model. -/
def saturatingSub (a b : Int) : Int :=
  max i64Min (min i64Max (a - b))

namespace SupervisorLoop

/-- `SupervisorLoop::push_activity`. -/
def pushActivity (lp : SupervisorLoop) (id : String) (kind : String) (message : String)
    (workspace_id : Option String) (thread_id : Option String) (needs_input : Bool)
    (created_at_ms : Int) (metadata : JsonVal) : SupervisorLoop :=
  { lp with
    state := applyUpdate lp.state (.pushActivity
      { id := id, kind := kind, message := message, created_at_ms := created_at_ms,
        workspace_id := workspace_id, thread_id := thread_id,
        needs_input := needs_input, metadata := metadata }
      lp.config.activity_feed_limit) }

/-- `SupervisorLoop::push_signal`. -/
def pushSignal (lp : SupervisorLoop) (id : String) (kind : SupervisorSignalKind)
    (workspace_id : Option String) (thread_id : Option String) (job_id : Option String)
    (message : String) (created_at_ms : Int) (context : JsonVal) : SupervisorLoop :=
  { lp with
    state := applyUpdate lp.state (.pushSignal
      { id := id, kind := kind, workspace_id := workspace_id, thread_id := thread_id,
        job_id := job_id, message := message, created_at_ms := created_at_ms,
        acknowledged_at_ms := none, context := context }) }

/-- `SupervisorLoop::append_chat_message`. -/
def appendChatMessage (lp : SupervisorLoop) (message : SupervisorChatMessage) :
    SupervisorLoop :=
  { lp with
    state := applyUpdate lp.state (.pushChatMessage message DEFAULT_CHAT_HISTORY_LIMIT) }

/-- `SupervisorLoop::chat_history`. -/
def chatHistory (lp : SupervisorLoop) : List SupervisorChatMessage :=
  lp.state.chat_history

/-- `SupervisorLoop::ack_signal`. -/
def ackSignal (lp : SupervisorLoop) (signal_id : String) (acknowledged_at_ms : Int) :
    SupervisorLoop :=
  { lp with state := applyUpdate lp.state (.ackSignal signal_id acknowledged_at_ms) }

/-- `SupervisorLoop::upsert_job`. -/
def upsertJob (lp : SupervisorLoop) (job : SupervisorJobState) : SupervisorLoop :=
  { lp with state := applyUpdate lp.state (.upsertJob job) }

/-- `SupervisorLoop::record_workspace_heartbeat`. -/
def recordWorkspaceHeartbeat (lp : SupervisorLoop) (workspace_id : String)
    (timestamp_ms : Int) : SupervisorLoop :=
  { lp with
    workspace_last_event_at_ms := upsertA workspace_id timestamp_ms
      lp.workspace_last_event_at_ms }

/-- `SupervisorLoop::workspace_state`. -/
def workspaceState (lp : SupervisorLoop) (workspace_id : String) :
    SupervisorWorkspaceState :=
  (lookupA workspace_id lp.state.workspaces).getD { id := workspace_id }

/-- `SupervisorLoop::thread_state`. -/
def threadState (lp : SupervisorLoop) (workspace_id thread_id : String) :
    SupervisorThreadState :=
  (lookupA (thread_map_key workspace_id thread_id) lp.state.threads).getD
    { id := thread_id, workspace_id := workspace_id }

/-- The sort comparator of `SupervisorLoop::job_for_event` as a strict
"sorts before" test: non-terminal first, then `requested_at_ms`
descending, then id ascending. -/
def jobSortsBefore (left right : SupervisorJobState) : Bool :=
  let left_priority : Int := if left.status.isTerminal then 0 else 1
  let right_priority : Int := if right.status.isTerminal then 0 else 1
  if right_priority ≠ left_priority then right_priority < left_priority
  else if right.requested_at_ms ≠ left.requested_at_ms then
    right.requested_at_ms < left.requested_at_ms
  else left.id < right.id

/-- `SupervisorLoop::job_for_event`: the first candidate of the sorted
list, i.e. the earliest minimal element under `jobSortsBefore`. -/
def jobForEvent (lp : SupervisorLoop) (workspace_id : String)
    (thread_id : Option String) : Option SupervisorJobState :=
  let candidates := (lp.state.jobs.map Prod.snd).filter (fun job =>
    job.workspace_id == workspace_id &&
      match thread_id with
      | some tid => job.thread_id == some tid
      | none => true)
  candidates.foldl (fun acc job =>
    match acc with
    | none => some job
    | some best => if jobSortsBefore job best then some job else some best) none

/-- `SupervisorLoop::append_subtask_event` (returns the updated job and
whether the event was added). -/
def appendSubtaskEvent (job : SupervisorJobState) (event : SupervisorSubtaskEvent) :
    SupervisorJobState × Bool :=
  if job.recent_events.any (fun entry => entry.id == event.id) then (job, false)
  else
    let events := job.recent_events ++ [event]
    let events :=
      if events.length > SUPERVISOR_SUBTASK_EVENT_LIMIT then
        events.drop (events.length - SUPERVISOR_SUBTASK_EVENT_LIMIT)
      else events
    ({ job with recent_events := events }, true)

/-- `SupervisorLoop::push_subtask_chat_message`. -/
def pushSubtaskChatMessage (lp : SupervisorLoop) (job : SupervisorJobState)
    (message : String) (kind : String) (created_at_ms : Int) : SupervisorLoop :=
  let thread_label := job.thread_id.getD "-"
  let job_id := job.id
  let ws_id := job.workspace_id
  let head := s!"[subtask:{job_id} ws:{ws_id} thread:{thread_label}]"
  lp.appendChatMessage
    { id := s!"chat-bridge:{kind}:{job_id}:{created_at_ms}",
      role := .system,
      text := head ++ " " ++ message,
      created_at_ms := created_at_ms }

/-- `SupervisorLoop::apply_thread_activity`. -/
def applyThreadActivity (lp : SupervisorLoop) (workspace_id thread_id : String)
    (active_turn_id : Option String) (status : SupervisorThreadStatus)
    (task : Option String) (timestamp_ms : Int) : SupervisorLoop :=
  let lp := lp.recordWorkspaceHeartbeat workspace_id timestamp_ms
  let workspace := lp.workspaceState workspace_id
  let workspace :=
    { workspace with
      connected := true
      health := .healthy
      last_activity_at_ms := some timestamp_ms
      active_thread_id := some thread_id }
  let workspace :=
    if task.isSome then { workspace with current_task := task } else workspace
  let lp := { lp with state := applyUpdate lp.state (.upsertWorkspace workspace) }
  let thread := lp.threadState workspace_id thread_id
  let thread := { thread with status := status, last_activity_at_ms := some timestamp_ms }
  let thread :=
    match task with
    | some t => { thread with current_task := some t }
    | none => thread
  let thread := { thread with active_turn_id := active_turn_id }
  { lp with state := applyUpdate lp.state (.upsertThread thread) }

/-- `SupervisorLoop::apply_supervisor_event`. -/
def applySupervisorEvent (lp : SupervisorLoop) : SupervisorEvent → SupervisorLoop
  | .turnStarted workspace_id thread_id turn_id task received_at_ms =>
    let lp := lp.applyThreadActivity workspace_id thread_id (some turn_id)
      .running task received_at_ms
    let lp := lp.pushActivity
      s!"turn_started:{workspace_id}:{thread_id}:{turn_id}:{received_at_ms}"
      "turn_started" "Turn started" (some workspace_id) (some thread_id) false
      received_at_ms (jobj [("turnId", .str turn_id), ("task", optStrJson task)])
    match lp.jobForEvent workspace_id (some thread_id) with
    | none => lp
    | some job =>
      let job := { job with status := .running, thread_id := some thread_id, error := none }
      let pair := appendSubtaskEvent job
        { id := s!"turn_started:{workspace_id}:{thread_id}:{turn_id}",
          kind := "running",
          message := s!"Turn `{turn_id}` started.",
          created_at_ms := received_at_ms,
          metadata := jobj [("turnId", .str turn_id), ("task", optStrJson task)] }
      let job := pair.1
      let added := pair.2
      let lp := { lp with state := applyUpdate lp.state (.upsertJob job) }
      if added then
        lp.pushSubtaskChatMessage job s!"Progress update: turn `{turn_id}` started."
          "turn_started" received_at_ms
      else lp
  | .turnCompleted workspace_id thread_id turn_id task received_at_ms =>
    let lp := lp.applyThreadActivity workspace_id thread_id none
      .completed task received_at_ms
    let lp := lp.pushSignal
      s!"turn:{workspace_id}:{thread_id}:{turn_id}:completed"
      .completed (some workspace_id) (some thread_id) none "Turn completed"
      received_at_ms (jobj [("turnId", .str turn_id), ("task", optStrJson task)])
    let lp := lp.pushActivity
      s!"turn_completed:{workspace_id}:{thread_id}:{turn_id}:{received_at_ms}"
      "turn_completed" "Turn completed" (some workspace_id) (some thread_id) false
      received_at_ms (jobj [("turnId", .str turn_id), ("task", optStrJson task)])
    match lp.jobForEvent workspace_id (some thread_id) with
    | none => lp
    | some job =>
      let job :=
        { job with
          status := .completed
          completed_at_ms := some received_at_ms
          waiting_request_id := none
          waiting_question_ids := [] }
      let pair := appendSubtaskEvent job
        { id := s!"turn_completed:{workspace_id}:{thread_id}:{turn_id}",
          kind := "completed",
          message := "Turn completed",
          created_at_ms := received_at_ms,
          metadata := jobj [("turnId", .str turn_id), ("task", optStrJson task)] }
      let job := pair.1
      let added := pair.2
      let lp := { lp with state := applyUpdate lp.state (.upsertJob job) }
      if added then
        lp.pushSubtaskChatMessage job
          "Subtask completed. Next action: review result and send follow-up instructions if needed."
          "turn_completed" received_at_ms
      else lp
  | .itemStarted workspace_id thread_id item_id item_type task item_content received_at_ms =>
    let lp := lp.applyThreadActivity workspace_id thread_id none
      .running task received_at_ms
    let lp := lp.pushActivity
      s!"item_started:{workspace_id}:{thread_id}:{item_id}:{received_at_ms}"
      "item_started" "Item started" (some workspace_id) (some thread_id) false
      received_at_ms
      (jobj [("itemId", .str item_id), ("itemType", optStrJson item_type),
        ("task", optStrJson task), ("itemContent", optStrJson item_content)])
    match lp.jobForEvent workspace_id (some thread_id) with
    | none => lp
    | some job =>
      let job := { job with status := .running }
      let label := rustTrim (item_type.getD "unknown")
      let pair := appendSubtaskEvent job
        { id := s!"item_started:{workspace_id}:{thread_id}:{item_id}",
          kind := "running",
          message := s!"Item `{label}` started.",
          created_at_ms := received_at_ms,
          metadata := jobj [("itemId", .str item_id), ("itemType", optStrJson item_type),
            ("task", optStrJson task), ("itemContent", optStrJson item_content)] }
      let job := pair.1
      let added := pair.2
      let lp := { lp with state := applyUpdate lp.state (.upsertJob job) }
      if added then
        lp.pushSubtaskChatMessage job s!"Progress update: item `{label}` started."
          "item_started" received_at_ms
      else lp
  | .itemCompleted workspace_id thread_id item_id item_type task item_content received_at_ms =>
    let lp := lp.applyThreadActivity workspace_id thread_id none
      .running task received_at_ms
    let lp := lp.pushActivity
      s!"item_completed:{workspace_id}:{thread_id}:{item_id}:{received_at_ms}"
      "item_completed" "Item completed" (some workspace_id) (some thread_id) false
      received_at_ms
      (jobj [("itemId", .str item_id), ("itemType", optStrJson item_type),
        ("task", optStrJson task), ("itemContent", optStrJson item_content)])
    match lp.jobForEvent workspace_id (some thread_id) with
    | none => lp
    | some job =>
      let job := { job with status := .running }
      let label := rustTrim (item_type.getD "unknown")
      let pair := appendSubtaskEvent job
        { id := s!"item_completed:{workspace_id}:{thread_id}:{item_id}",
          kind := "running",
          message := s!"Item `{label}` completed.",
          created_at_ms := received_at_ms,
          metadata := jobj [("itemId", .str item_id), ("itemType", optStrJson item_type),
            ("task", optStrJson task), ("itemContent", optStrJson item_content)] }
      let job := pair.1
      let added := pair.2
      let lp := { lp with state := applyUpdate lp.state (.upsertJob job) }
      if added then
        let chat_message := s!"Progress update: item `{label}` completed."
        let chat_message :=
          if item_type.any (fun value => eqIgnoreAsciiCase value "agentMessage") then
            match item_content with
            | some content => "Agent response: " ++ summarizeText content 240
            | none => chat_message
          else chat_message
        lp.pushSubtaskChatMessage job chat_message "item_completed" received_at_ms
      else lp
  | .userInputRequested workspace_id request_key request_id request_id_value thread_id
      turn_id item_id question question_ids params received_at_ms =>
    let lp :=
      { lp with
        state := applyUpdate lp.state (.upsertOpenQuestion
          { id := request_key
            workspace_id := workspace_id
            thread_id := thread_id.getD "-"
            question := question
            created_at_ms := received_at_ms
            resolved_at_ms := none
            context := jobj [("requestId", request_id_value),
              ("turnId", optStrJson turn_id), ("itemId", optStrJson item_id),
              ("questionIds", jarr (question_ids.map JsonVal.str)),
              ("params", params)] }) }
    let lp := lp.pushActivity
      s!"waiting_for_user:{request_key}:{received_at_ms}"
      "waiting_for_user" "Child task is waiting for user input" (some workspace_id)
      thread_id true received_at_ms
      (jobj [("requestKey", .str request_key), ("requestId", .str request_id),
        ("turnId", optStrJson turn_id), ("itemId", optStrJson item_id),
        ("question", .str question),
        ("questionIds", jarr (question_ids.map JsonVal.str)), ("params", params)])
    match lp.jobForEvent workspace_id thread_id with
    | none => lp
    | some job =>
      let job :=
        { job with
          status := .waitingForUser
          waiting_request_id := some request_id_value
          waiting_question_ids := question_ids }
      let job_id := job.id
      let pair := appendSubtaskEvent job
        { id := s!"waiting_for_user:{job_id}:{request_key}",
          kind := "waiting_for_user",
          message := s!"Child question: {question}",
          created_at_ms := received_at_ms,
          metadata := jobj [("requestKey", .str request_key),
            ("requestId", .str request_id),
            ("questionIds", jarr (question_ids.map JsonVal.str))] }
      let job := pair.1
      let added := pair.2
      let lp := { lp with state := applyUpdate lp.state (.upsertJob job) }
      if added then
        lp.pushSubtaskChatMessage job
          (s!"Child task asks: {question}" ++ "\n" ++
            s!"Reply in this chat to continue (subtask `{job_id}`).")
          "waiting_for_user" received_at_ms
      else lp
  | .approvalRequested workspace_id request_key request_id method thread_id turn_id
      item_id params received_at_ms =>
    let lp :=
      { lp with
        state := applyUpdate lp.state (.upsertPendingApproval
          { request_key := request_key
            workspace_id := workspace_id
            thread_id := thread_id
            turn_id := turn_id
            item_id := item_id
            request_id := request_id
            method := method
            params := params
            created_at_ms := received_at_ms
            resolved_at_ms := none }) }
    let lp := lp.pushSignal s!"approval:{request_key}" .needsApproval
      (some workspace_id) thread_id none "Action requires approval" received_at_ms
      (jobj [("requestKey", .str request_key)])
    let lp := lp.pushActivity s!"approval:{request_key}:{received_at_ms}"
      "needs_approval" "Approval requested" (some workspace_id) thread_id true
      received_at_ms params
    match lp.jobForEvent workspace_id thread_id with
    | none => lp
    | some job =>
      let job := { job with status := .waitingForUser }
      let job_id := job.id
      let pair := appendSubtaskEvent job
        { id := s!"approval_requested:{job_id}:{request_key}",
          kind := "waiting_for_user",
          message := "Approval requested",
          created_at_ms := received_at_ms,
          metadata := jobj [("requestKey", .str request_key)] }
      let job := pair.1
      let added := pair.2
      let lp := { lp with state := applyUpdate lp.state (.upsertJob job) }
      if added then
        lp.pushSubtaskChatMessage job
          "Child task requires approval before it can continue."
          "needs_approval" received_at_ms
      else lp
  | .error workspace_id thread_id turn_id message will_retry received_at_ms =>
    let lp :=
      match thread_id with
      | some thread_id_value =>
        lp.applyThreadActivity workspace_id thread_id_value turn_id
          .failed none received_at_ms
      | none => lp
    let thread_label := thread_id.getD ""
    let turn_label := turn_id.getD ""
    let lp := lp.pushSignal
      s!"error:{workspace_id}:{thread_label}:{turn_label}"
      .failed (some workspace_id) thread_id none message received_at_ms
      (jobj [("willRetry", .bool will_retry), ("turnId", optStrJson turn_id)])
    let lp := lp.pushActivity
      s!"error:{workspace_id}:{thread_label}:{turn_label}:{received_at_ms}"
      "error" message (some workspace_id) thread_id false received_at_ms
      (jobj [("willRetry", .bool will_retry), ("turnId", optStrJson turn_id)])
    match lp.jobForEvent workspace_id thread_id with
    | none => lp
    | some job =>
      let job :=
        { job with status := if will_retry then .running else .failed }
      let job := if !will_retry then { job with error := some message } else job
      let pair := appendSubtaskEvent job
        { id := s!"error:{workspace_id}:{thread_label}:{turn_label}",
          kind := "failed",
          message := message,
          created_at_ms := received_at_ms,
          metadata := jobj [("willRetry", .bool will_retry),
            ("turnId", optStrJson turn_id)] }
      let job := pair.1
      let added := pair.2
      let lp := { lp with state := applyUpdate lp.state (.upsertJob job) }
      if added then
        let chat_message :=
          if will_retry then s!"Child task reported an error but will retry: {message}"
          else s!"Child task failed: {message}"
        lp.pushSubtaskChatMessage job chat_message "error" received_at_ms
      else lp

/-- `SupervisorLoop::compute_health`. -/
def computeHealth (lp : SupervisorLoop) (snapshot : SupervisorWorkspaceHealthInput)
    (now_ms : Int) : SupervisorHealth :=
  if !snapshot.connected then .disconnected
  else
    match lookupA snapshot.workspace_id lp.workspace_last_event_at_ms with
    | none => .stale
    | some last_activity =>
      let age := saturatingSub now_ms last_activity
      if age ≥ lp.config.disconnected_after_ms then .disconnected
      else if age ≥ lp.config.stale_after_ms then .stale
      else .healthy

/-- The workspace record upserted by one `run_health_check` iteration
(hoisted out of `healthStep` so that lemmas can name it). -/
def healthStepWorkspace (lp : SupervisorLoop) (snapshot : SupervisorWorkspaceHealthInput)
    (now_ms : Int) : SupervisorWorkspaceState :=
  let next_health := computeHealth lp snapshot now_ms
  let last_activity := lookupA snapshot.workspace_id lp.workspace_last_event_at_ms
  let workspace := lp.workspaceState snapshot.workspace_id
  let workspace :=
    match (snapshot.workspace_name.map rustTrim).filter (fun v => !v.isEmpty) with
    | some name => { workspace with name := name }
    | none => workspace
  { workspace with
    connected := snapshot.connected
    health := next_health
    last_activity_at_ms := last_activity.or workspace.last_activity_at_ms }

/-- The loop body of `SupervisorLoop::run_health_check` for one workspace
snapshot. -/
def healthStep (lp : SupervisorLoop) (snapshot : SupervisorWorkspaceHealthInput)
    (now_ms : Int) : SupervisorLoop :=
  let previous_health :=
    ((lookupA snapshot.workspace_id lp.state.workspaces).map (·.health)).getD .healthy
  let next_health := computeHealth lp snapshot now_ms
  let lp :=
    { lp with
      state := applyUpdate lp.state
        (.upsertWorkspace (healthStepWorkspace lp snapshot now_ms)) }
  if previous_health = next_health then lp
  else
    let ws_id := snapshot.workspace_id
    match next_health with
    | .stale =>
      lp.pushSignal s!"health:{ws_id}:stalled" .stalled (some ws_id) none none
        "Workspace is stale (no recent events)." now_ms
        (jobj [("health", .str "stale")])
    | .disconnected =>
      lp.pushSignal s!"health:{ws_id}:disconnected" .disconnected (some ws_id) none none
        "Workspace appears disconnected." now_ms
        (jobj [("health", .str "disconnected")])
    | .healthy => lp

/-- `SupervisorLoop::run_health_check`. -/
def runHealthCheck (lp : SupervisorLoop)
    (snapshots : List SupervisorWorkspaceHealthInput) (now_ms : Int) : SupervisorLoop :=
  snapshots.foldl (fun lp snapshot => healthStep lp snapshot now_ms) lp

/-- `SupervisorLoop::waiting_jobs` (filter; the newest-first ordering of the
source's stable sort is irrelevant to the claims and kept by sorting with
the same comparator). -/
def waitingJobs (lp : SupervisorLoop) : List SupervisorJobState :=
  let waiting := (lp.state.jobs.map Prod.snd).filter (fun job =>
    (match job.status with | .waitingForUser => true | _ => false) &&
      job.waiting_request_id.isSome && !(rustTrim job.workspace_id).isEmpty)
  waiting.mergeSort (fun left right => right.requested_at_ms ≤ left.requested_at_ms)

/-- `SupervisorLoop::record_route_decision`. -/
def recordRouteDecision (lp : SupervisorLoop) (route_id : String) (message : String)
    (created_at_ms : Int) (metadata : JsonVal) : SupervisorLoop :=
  lp.pushActivity s!"route_decision:{route_id}:{created_at_ms}" "route_decision"
    message none none false created_at_ms metadata

/-- `SupervisorLoop::mark_reply_delivered`.  The source mutates `&mut self`
and returns `Result<(), String>`; the model returns the untouched state
inside `Except.error` exactly when the source returns `Err` (all `Err`
returns happen before any mutation). -/
def markReplyDelivered (lp : SupervisorLoop) (job_id : String) (request_id : JsonVal)
    (reply_preview : String) (delivered_at_ms : Int) : Except String SupervisorLoop :=
  match lookupA job_id lp.state.jobs with
  | none => .error s!"subtask `{job_id}` is not tracked"
  | some existing =>
    if existing.status ≠ .waitingForUser then
      .error s!"subtask `{job_id}` is not waiting for user input anymore"
    else
      match existing.waiting_request_id with
      | none => .error s!"subtask `{job_id}` no longer has a pending request to answer"
      | some waiting_request_id =>
        if waiting_request_id ≠ request_id then
          .error s!"subtask `{job_id}` is waiting on a different request id"
        else
          let updated :=
            { existing with
              status := .running
              waiting_request_id := none
              waiting_question_ids := [] }
          let request_key := request_value_key updated.workspace_id request_id
          let reply_summary := summarizeText reply_preview 180
          let pair := appendSubtaskEvent updated
            { id := s!"reply_delivered:{job_id}:{request_key}",
              kind := "reply_delivered",
              message := s!"Reply delivered to child request `{request_key}`.",
              created_at_ms := delivered_at_ms,
              metadata := jobj [("requestKey", .str request_key),
                ("replySummary", .str reply_summary)] }
          let updated := pair.1
          let lp := { lp with state := applyUpdate lp.state (.upsertJob updated) }
          let lp :=
            { lp with
              state := applyUpdate lp.state
                (.resolveOpenQuestion request_key delivered_at_ms) }
          let updated_id := updated.id
          let lp := lp.pushActivity
            s!"reply_delivered:{updated_id}:{request_key}:{delivered_at_ms}"
            "reply_delivered" s!"Reply delivered for subtask `{updated_id}`."
            (some updated.workspace_id) updated.thread_id false delivered_at_ms
            (jobj [("subtaskId", .str updated.id), ("requestKey", .str request_key),
              ("replySummary", .str reply_summary)])
          let lp := lp.pushSubtaskChatMessage updated
            (s!"Reply delivered to child task request `{request_key}`. " ++
              "Continuing execution.")
            "reply_delivered" delivered_at_ms
          .ok lp

/-- `SupervisorLoop::mark_reply_delivery_failed`. -/
def markReplyDeliveryFailed (lp : SupervisorLoop) (job_id : String)
    (request_id : JsonVal) (error : String) (failed_at_ms : Int) : SupervisorLoop :=
  match lookupA job_id lp.state.jobs with
  | none => lp
  | some existing =>
    let request_key := request_value_key existing.workspace_id request_id
    let pair := appendSubtaskEvent existing
      { id := s!"reply_delivery_failed:{job_id}:{request_key}",
        kind := "failed",
        message := s!"Reply delivery failed: {error}",
        created_at_ms := failed_at_ms,
        metadata := jobj [("requestKey", .str request_key), ("error", .str error)] }
    let updated := pair.1
    let added := pair.2
    let lp := { lp with state := applyUpdate lp.state (.upsertJob updated) }
    let lp := lp.pushActivity
      s!"reply_delivery_failed:{job_id}:{request_key}:{failed_at_ms}"
      "reply_delivery_failed" s!"Failed to deliver reply for subtask `{job_id}`."
      (some updated.workspace_id) updated.thread_id true failed_at_ms
      (jobj [("subtaskId", .str job_id), ("requestKey", .str request_key),
        ("error", .str error)])
    if added then
      lp.pushSubtaskChatMessage updated s!"Reply delivery failed: {error}"
        "reply_delivery_failed" failed_at_ms
    else lp

end SupervisorLoop

/-! ## Claim C4: `compute_health` versus the spec formula -/

/-- The health formula as worded by the spec (§4.4 `run_health_check`):
not connected → Disconnected; no recorded activity → Stale; otherwise with
`age = now_ms - last`, Disconnected when `age ≥ 300000`, Stale when
`age ≥ 90000`, else Healthy (defaults). -/
def specNextHealth (connected : Bool) (last_activity : Option Int) (now_ms : Int) :
    SupervisorHealth :=
  if !connected then .disconnected
  else
    match last_activity with
    | none => .stale
    | some last =>
      if now_ms - last ≥ 300000 then .disconnected
      else if now_ms - last ≥ 90000 then .stale
      else .healthy

theorem saturatingSub_ge_iff {a b c : Int} (hlo : i64Min < c) (hhi : c ≤ i64Max) :
    saturatingSub a b ≥ c ↔ a - b ≥ c := by
  unfold saturatingSub i64Min i64Max at *
  rw [max_def, min_def]
  split_ifs <;> omega

/-- C4.  For every workspace health input and every `now_ms`, the health
computed by `SupervisorLoop::compute_health` under the default thresholds
(`stale_after_ms = 90000`, `disconnected_after_ms = 300000`) is exactly the
spec formula: Disconnected when not connected; Stale when the loop has no
recorded activity timestamp for the workspace; otherwise Disconnected when
`now_ms - last ≥ 300000`, Stale when `now_ms - last ≥ 90000`, and Healthy
otherwise. -/
theorem compute_health_matches_spec (st : SupervisorState)
    (m : List (String × Int)) (snapshot : SupervisorWorkspaceHealthInput)
    (now_ms : Int) :
    SupervisorLoop.computeHealth
        { state := st, config := {}, workspace_last_event_at_ms := m } snapshot now_ms
      = specNextHealth snapshot.connected (lookupA snapshot.workspace_id m) now_ms := by
  unfold SupervisorLoop.computeHealth specNextHealth
  cases hc : snapshot.connected with
  | false => simp
  | true =>
    rw [show (!true) = false from rfl]
    rw [if_neg Bool.false_ne_true]
    rw [if_neg Bool.false_ne_true]
    cases h : lookupA snapshot.workspace_id m with
    | none => rfl
    | some last =>
      simp only []
      have h300 : saturatingSub now_ms last ≥ (300000 : Int) ↔ now_ms - last ≥ 300000 :=
        saturatingSub_ge_iff (by norm_num [i64Min]) (by norm_num [i64Max])
      have h90 : saturatingSub now_ms last ≥ (90000 : Int) ↔ now_ms - last ≥ 90000 :=
        saturatingSub_ge_iff (by norm_num [i64Min]) (by norm_num [i64Max])
      by_cases hd : now_ms - last ≥ 300000
      · rw [if_pos (h300.mpr hd), if_pos hd]
      · rw [if_neg (fun hh => hd (h300.mp hh)), if_neg hd]
        by_cases hs : now_ms - last ≥ 90000
        · rw [if_pos (h90.mpr hs), if_pos hs]
        · rw [if_neg (fun hh => hs (h90.mp hh)), if_neg hs]

/-! ## Claim C3: health signals are edge-triggered -/

/-- The stored health of a workspace as read by `run_health_check`
(`unwrap_or_default()` yields `Healthy` when the workspace is unknown). -/
def prevHealthD (lp : SupervisorLoop) (s : SupervisorWorkspaceHealthInput) :
    SupervisorHealth :=
  ((lookupA s.workspace_id lp.state.workspaces).map (·.health)).getD .healthy

/-- The Stalled signal pushed by `run_health_check`. -/
def stalledHealthSignal (s : SupervisorWorkspaceHealthInput) (now_ms : Int) :
    SupervisorSignal :=
  let ws_id := s.workspace_id
  { id := s!"health:{ws_id}:stalled"
    kind := .stalled
    workspace_id := some ws_id
    thread_id := none
    job_id := none
    message := "Workspace is stale (no recent events)."
    created_at_ms := now_ms
    acknowledged_at_ms := none
    context := jobj [("health", .str "stale")] }

/-- The Disconnected signal pushed by `run_health_check`. -/
def disconnectedHealthSignal (s : SupervisorWorkspaceHealthInput) (now_ms : Int) :
    SupervisorSignal :=
  let ws_id := s.workspace_id
  { id := s!"health:{ws_id}:disconnected"
    kind := .disconnected
    workspace_id := some ws_id
    thread_id := none
    job_id := none
    message := "Workspace appears disconnected."
    created_at_ms := now_ms
    acknowledged_at_ms := none
    context := jobj [("health", .str "disconnected")] }

/-- Per-snapshot characterization of the signals produced by one
`run_health_check` iteration: a signal appears exactly on a change to
Stale or Disconnected, and a change to Healthy emits nothing. -/
theorem healthStep_signals (lp : SupervisorLoop) (s : SupervisorWorkspaceHealthInput)
    (now_ms : Int) :
    (SupervisorLoop.healthStep lp s now_ms).state.signals =
      (if SupervisorLoop.computeHealth lp s now_ms ≠ prevHealthD lp s ∧
          SupervisorLoop.computeHealth lp s now_ms = .stale then
        pushSignalList lp.state.signals (stalledHealthSignal s now_ms)
      else if SupervisorLoop.computeHealth lp s now_ms ≠ prevHealthD lp s ∧
          SupervisorLoop.computeHealth lp s now_ms = .disconnected then
        pushSignalList lp.state.signals (disconnectedHealthSignal s now_ms)
      else lp.state.signals) := by
  simp only [prevHealthD]
  by_cases hp : ((lookupA s.workspace_id lp.state.workspaces).map (·.health)).getD .healthy
      = SupervisorLoop.computeHealth lp s now_ms
  · rw [if_neg (fun h => h.1 hp.symm), if_neg (fun h => h.1 hp.symm)]
    simp only [SupervisorLoop.healthStep]
    rw [if_pos hp]
    rfl
  · simp only [SupervisorLoop.healthStep]
    rw [if_neg hp]
    cases hn : SupervisorLoop.computeHealth lp s now_ms with
    | healthy =>
      rw [if_neg (fun h => SupervisorHealth.noConfusion h.2),
        if_neg (fun h => SupervisorHealth.noConfusion h.2)]
      rfl
    | stale =>
      rw [if_pos ⟨fun h => hp (h.symm.trans hn.symm), rfl⟩]
      rfl
    | disconnected =>
      rw [if_neg (fun h => SupervisorHealth.noConfusion h.2)]
      rw [if_pos ⟨fun h => hp (h.symm.trans hn.symm), rfl⟩]
      rfl

theorem healthStep_lastEvent (lp : SupervisorLoop) (s : SupervisorWorkspaceHealthInput)
    (now_ms : Int) :
    (SupervisorLoop.healthStep lp s now_ms).workspace_last_event_at_ms =
      lp.workspace_last_event_at_ms := by
  simp only [SupervisorLoop.healthStep]
  split
  · rfl
  · split <;> rfl

theorem healthStep_config (lp : SupervisorLoop) (s : SupervisorWorkspaceHealthInput)
    (now_ms : Int) :
    (SupervisorLoop.healthStep lp s now_ms).config = lp.config := by
  simp only [SupervisorLoop.healthStep]
  split
  · rfl
  · split <;> rfl

theorem computeHealth_congr {lp1 lp2 : SupervisorLoop}
    (h1 : lp1.config = lp2.config)
    (h2 : lp1.workspace_last_event_at_ms = lp2.workspace_last_event_at_ms)
    (s : SupervisorWorkspaceHealthInput) (now_ms : Int) :
    SupervisorLoop.computeHealth lp1 s now_ms = SupervisorLoop.computeHealth lp2 s now_ms := by
  unfold SupervisorLoop.computeHealth
  rw [h1, h2]

/-- The well-formedness invariant of the workspace map: every entry's `id`
field equals its key (maintained by every `UpsertWorkspace` the loop
issues). -/
def wfWorkspaces (st : SupervisorState) : Prop :=
  ∀ p ∈ st.workspaces, (p : String × SupervisorWorkspaceState).2.id = p.1

theorem workspaceState_id {lp : SupervisorLoop} (hwf : wfWorkspaces lp.state)
    (wid : String) : (lp.workspaceState wid).id = wid := by
  unfold SupervisorLoop.workspaceState
  cases hl : lookupA wid lp.state.workspaces with
  | none => rfl
  | some w => exact hwf (wid, w) (lookupA_mem hl)

theorem healthStepWorkspace_id {lp : SupervisorLoop} (hwf : wfWorkspaces lp.state)
    (s : SupervisorWorkspaceHealthInput) (now_ms : Int) :
    (SupervisorLoop.healthStepWorkspace lp s now_ms).id = s.workspace_id := by
  simp only [SupervisorLoop.healthStepWorkspace]
  split
  · exact workspaceState_id hwf s.workspace_id
  · exact workspaceState_id hwf s.workspace_id

theorem healthStepWorkspace_health (lp : SupervisorLoop)
    (s : SupervisorWorkspaceHealthInput) (now_ms : Int) :
    (SupervisorLoop.healthStepWorkspace lp s now_ms).health =
      SupervisorLoop.computeHealth lp s now_ms := rfl

theorem healthStep_workspaces (lp : SupervisorLoop)
    (s : SupervisorWorkspaceHealthInput) (now_ms : Int) :
    (SupervisorLoop.healthStep lp s now_ms).state.workspaces =
      upsertA (SupervisorLoop.healthStepWorkspace lp s now_ms).id
        (SupervisorLoop.healthStepWorkspace lp s now_ms) lp.state.workspaces := by
  simp only [SupervisorLoop.healthStep]
  split
  · rfl
  · split <;> rfl

theorem wf_upsertWorkspace {st : SupervisorState} (hwf : wfWorkspaces st)
    (w : SupervisorWorkspaceState) :
    wfWorkspaces (applyUpdate st (.upsertWorkspace w)) := by
  intro p hp
  rcases mem_upsertA hp with h | h
  · rw [h]
  · exact hwf p h

theorem healthStep_wf {lp : SupervisorLoop} (hwf : wfWorkspaces lp.state)
    (s : SupervisorWorkspaceHealthInput) (now_ms : Int) :
    wfWorkspaces (SupervisorLoop.healthStep lp s now_ms).state := by
  intro p hp
  rw [healthStep_workspaces] at hp
  rcases mem_upsertA hp with h | h
  · rw [h]
  · exact hwf p h

theorem healthStep_workspaces_ne {w : String} {s : SupervisorWorkspaceHealthInput}
    (hne : w ≠ s.workspace_id) {lp : SupervisorLoop} (hwf : wfWorkspaces lp.state)
    (now_ms : Int) :
    lookupA w (SupervisorLoop.healthStep lp s now_ms).state.workspaces =
      lookupA w lp.state.workspaces := by
  rw [healthStep_workspaces, healthStepWorkspace_id hwf]
  exact lookupA_upsertA_ne hne _ _

theorem healthStep_stored_health {lp : SupervisorLoop} (hwf : wfWorkspaces lp.state)
    (s : SupervisorWorkspaceHealthInput) (now_ms : Int) :
    prevHealthD (SupervisorLoop.healthStep lp s now_ms) s =
      SupervisorLoop.computeHealth lp s now_ms := by
  unfold prevHealthD
  rw [healthStep_workspaces, healthStepWorkspace_id hwf, lookupA_upsertA_self]
  rfl

theorem runHealthCheck_cons (lp : SupervisorLoop) (s : SupervisorWorkspaceHealthInput)
    (rest : List SupervisorWorkspaceHealthInput) (now_ms : Int) :
    SupervisorLoop.runHealthCheck lp (s :: rest) now_ms =
      SupervisorLoop.runHealthCheck (SupervisorLoop.healthStep lp s now_ms) rest now_ms := rfl

theorem runHealthCheck_lastEvent (snapshots : List SupervisorWorkspaceHealthInput)
    (now_ms : Int) : ∀ lp : SupervisorLoop,
    (SupervisorLoop.runHealthCheck lp snapshots now_ms).workspace_last_event_at_ms =
      lp.workspace_last_event_at_ms := by
  induction snapshots with
  | nil => intro lp; rfl
  | cons s rest ih =>
    intro lp
    rw [runHealthCheck_cons, ih, healthStep_lastEvent]

theorem runHealthCheck_config (snapshots : List SupervisorWorkspaceHealthInput)
    (now_ms : Int) : ∀ lp : SupervisorLoop,
    (SupervisorLoop.runHealthCheck lp snapshots now_ms).config = lp.config := by
  induction snapshots with
  | nil => intro lp; rfl
  | cons s rest ih =>
    intro lp
    rw [runHealthCheck_cons, ih, healthStep_config]

theorem runHealthCheck_wf (snapshots : List SupervisorWorkspaceHealthInput)
    (now_ms : Int) : ∀ lp : SupervisorLoop, wfWorkspaces lp.state →
    wfWorkspaces (SupervisorLoop.runHealthCheck lp snapshots now_ms).state := by
  induction snapshots with
  | nil => intro lp hwf; exact hwf
  | cons s rest ih =>
    intro lp hwf
    rw [runHealthCheck_cons]
    exact ih _ (healthStep_wf hwf s now_ms)

theorem runHealthCheck_workspaces_notin {w : String}
    (snapshots : List SupervisorWorkspaceHealthInput) (now_ms : Int) :
    ∀ lp : SupervisorLoop, wfWorkspaces lp.state →
    w ∉ snapshots.map (·.workspace_id) →
    lookupA w (SupervisorLoop.runHealthCheck lp snapshots now_ms).state.workspaces =
      lookupA w lp.state.workspaces := by
  induction snapshots with
  | nil => intro lp _ _; rfl
  | cons s rest ih =>
    intro lp hwf hw
    rw [runHealthCheck_cons]
    rw [ih _ (healthStep_wf hwf s now_ms) (fun hmem => hw (List.mem_cons_of_mem _ hmem))]
    refine healthStep_workspaces_ne (fun he => hw ?_) hwf now_ms
    rw [he, List.map_cons]
    exact List.mem_cons_self _ _

theorem runHealthCheck_signals_of_aligned (now_ms : Int) :
    ∀ (snapshots : List SupervisorWorkspaceHealthInput) (lp : SupervisorLoop),
    wfWorkspaces lp.state →
    (∀ s ∈ snapshots, prevHealthD lp s = SupervisorLoop.computeHealth lp s now_ms) →
    (snapshots.map (·.workspace_id)).Nodup →
    (SupervisorLoop.runHealthCheck lp snapshots now_ms).state.signals =
      lp.state.signals := by
  intro snapshots
  induction snapshots with
  | nil => intro lp _ _ _; rfl
  | cons s rest ih =>
    intro lp hwf halign hnodup
    have hnodup' := (List.nodup_cons.mp hnodup).2
    have hhead := (List.nodup_cons.mp hnodup).1
    have hstep_sig : (SupervisorLoop.healthStep lp s now_ms).state.signals =
        lp.state.signals := by
      rw [healthStep_signals]
      have h := halign s (List.mem_cons_self _ _)
      rw [if_neg (fun hc => hc.1 h.symm), if_neg (fun hc => hc.1 h.symm)]
    have halign' : ∀ s' ∈ rest,
        prevHealthD (SupervisorLoop.healthStep lp s now_ms) s' =
          SupervisorLoop.computeHealth (SupervisorLoop.healthStep lp s now_ms) s' now_ms := by
      intro s' hmem
      have hne : s'.workspace_id ≠ s.workspace_id := by
        intro he
        apply hhead
        have hmm : s'.workspace_id ∈ rest.map (·.workspace_id) :=
          List.mem_map_of_mem (·.workspace_id) hmem
        rw [he] at hmm
        exact hmm
      calc prevHealthD (SupervisorLoop.healthStep lp s now_ms) s'
          = prevHealthD lp s' := by
            unfold prevHealthD
            rw [healthStep_workspaces_ne hne hwf]
        _ = SupervisorLoop.computeHealth lp s' now_ms :=
            halign s' (List.mem_cons_of_mem _ hmem)
        _ = SupervisorLoop.computeHealth (SupervisorLoop.healthStep lp s now_ms) s' now_ms :=
            computeHealth_congr (healthStep_config lp s now_ms).symm
              (healthStep_lastEvent lp s now_ms).symm s' now_ms
    rw [runHealthCheck_cons, ih _ (healthStep_wf hwf s now_ms) halign' hnodup', hstep_sig]

theorem runHealthCheck_aligned_after (now_ms : Int) :
    ∀ (snapshots : List SupervisorWorkspaceHealthInput) (lp : SupervisorLoop),
    wfWorkspaces lp.state →
    (snapshots.map (·.workspace_id)).Nodup →
    ∀ s ∈ snapshots,
      prevHealthD (SupervisorLoop.runHealthCheck lp snapshots now_ms) s =
        SupervisorLoop.computeHealth
          (SupervisorLoop.runHealthCheck lp snapshots now_ms) s now_ms := by
  intro snapshots
  induction snapshots with
  | nil => intro lp _ _ s hmem; cases hmem
  | cons s0 rest ih =>
    intro lp hwf hnodup s hmem
    have hnodup' := (List.nodup_cons.mp hnodup).2
    have hhead := (List.nodup_cons.mp hnodup).1
    rw [runHealthCheck_cons]
    rcases List.mem_cons.mp hmem with he | hmem'
    · subst he
      have hnotin : s.workspace_id ∉ rest.map (·.workspace_id) := hhead
      have hstored :
          prevHealthD (SupervisorLoop.runHealthCheck
            (SupervisorLoop.healthStep lp s now_ms) rest now_ms) s =
          prevHealthD (SupervisorLoop.healthStep lp s now_ms) s := by
        unfold prevHealthD
        rw [runHealthCheck_workspaces_notin rest now_ms _
          (healthStep_wf hwf s now_ms) hnotin]
      rw [hstored, healthStep_stored_health hwf]
      refine (computeHealth_congr ?_ ?_ s now_ms).symm
      · rw [runHealthCheck_config, healthStep_config]
      · rw [runHealthCheck_lastEvent, healthStep_lastEvent]
    · exact ih (SupervisorLoop.healthStep lp s0 now_ms)
        (healthStep_wf hwf s0 now_ms) hnodup' s hmem'

/-- C3.  Health signals are edge-triggered.  First conjunct: in one
`run_health_check` iteration for a workspace snapshot, the signals list
gains a Stalled (resp. Disconnected) signal exactly when the stored health
value (Healthy when the workspace is unknown) changes to Stale (resp.
Disconnected), and is unchanged otherwise — in particular a transition to
Healthy pushes nothing.  Second conjunct: repeating `run_health_check`
with identical inputs (over distinct workspace ids) pushes no additional
signal. -/
theorem run_health_check_edge_triggered
    (lp : SupervisorLoop) (s : SupervisorWorkspaceHealthInput)
    (snapshots : List SupervisorWorkspaceHealthInput) (now_ms : Int)
    (hwf : wfWorkspaces lp.state)
    (hnodup : (snapshots.map (·.workspace_id)).Nodup) :
    ((SupervisorLoop.healthStep lp s now_ms).state.signals =
      (if SupervisorLoop.computeHealth lp s now_ms ≠ prevHealthD lp s ∧
          SupervisorLoop.computeHealth lp s now_ms = .stale then
        pushSignalList lp.state.signals (stalledHealthSignal s now_ms)
      else if SupervisorLoop.computeHealth lp s now_ms ≠ prevHealthD lp s ∧
          SupervisorLoop.computeHealth lp s now_ms = .disconnected then
        pushSignalList lp.state.signals (disconnectedHealthSignal s now_ms)
      else lp.state.signals)) ∧
    (SupervisorLoop.runHealthCheck
        (SupervisorLoop.runHealthCheck lp snapshots now_ms) snapshots now_ms).state.signals
      = (SupervisorLoop.runHealthCheck lp snapshots now_ms).state.signals := by
  refine ⟨healthStep_signals lp s now_ms, ?_⟩
  exact runHealthCheck_signals_of_aligned now_ms snapshots _
    (runHealthCheck_wf snapshots now_ms lp hwf)
    (runHealthCheck_aligned_after now_ms snapshots lp hwf hnodup) hnodup

/-- Witness for C3 at a concrete input: one connected workspace with no
recorded activity, checked twice. -/
theorem run_health_check_edge_triggered_witness :
    ((([⟨"ws-1", some "Workspace One", true⟩] :
        List SupervisorWorkspaceHealthInput).map (·.workspace_id)).Nodup) ∧
    (SupervisorLoop.runHealthCheck
        (SupervisorLoop.runHealthCheck {}
          [⟨"ws-1", some "Workspace One", true⟩] 100)
        [⟨"ws-1", some "Workspace One", true⟩] 100).state.signals
      = (SupervisorLoop.runHealthCheck {}
          [⟨"ws-1", some "Workspace One", true⟩] 100).state.signals := by
  refine ⟨by decide, ?_⟩
  exact (run_health_check_edge_triggered {} ⟨"ws-1", some "Workspace One", true⟩
    [⟨"ws-1", some "Workspace One", true⟩] 100
    (fun p hp => absurd hp (List.not_mem_nil p)) (by decide)).2

/-! ## Claim C6: the `PushActivity` reducer arm -/

theorem removeFirstBy_sublist {α : Type} (p : α → Bool) (l : List α) :
    List.Sublist (removeFirstBy p l) l := by
  induction l with
  | nil => exact List.Sublist.refl _
  | cons x rest ih =>
    simp only [removeFirstBy]
    split
    · exact List.Sublist.cons x (List.Sublist.refl rest)
    · exact List.Sublist.cons₂ x ih

theorem length_removeFirstBy_of_mem {α : Type} {p : α → Bool} :
    ∀ {l : List α}, (∃ x ∈ l, p x = true) →
    (removeFirstBy p l).length + 1 = l.length := by
  intro l
  induction l with
  | nil => rintro ⟨x, hx, _⟩; cases hx
  | cons a rest ih =>
    rintro ⟨x, hx, hpx⟩
    by_cases hp : p a
    · simp [removeFirstBy, hp]
    · rcases List.mem_cons.mp hx with he | hmem
      · exact absurd (he ▸ hpx) hp
      · simp only [removeFirstBy, if_neg hp, List.length_cons]
        rw [ih ⟨x, hmem, hpx⟩]

theorem not_mem_removeFirstById {α : Type} (f : α → String) {x : String} :
    ∀ {l : List α}, (l.map f).Nodup →
    x ∉ (removeFirstBy (fun item => f item == x) l).map f := by
  intro l
  induction l with
  | nil => intro _ h; cases h
  | cons a rest ih =>
    intro hnodup hmem
    have htail : (rest.map f).Nodup := (List.nodup_cons.mp hnodup).2
    by_cases hp : f a == x
    · have hfa : f a = x := eq_of_beq hp
      have hhead := (List.nodup_cons.mp hnodup).1
      simp only [removeFirstBy, if_pos hp] at hmem
      exact hhead (hfa ▸ hmem)
    · simp only [removeFirstBy, if_neg hp, List.map_cons] at hmem
      rcases List.mem_cons.mp hmem with he | hmem'
      · exact hp (beq_iff_eq.mpr he.symm)
      · exact ih htail hmem'

/-- C6.  After a `PushActivity` update on a feed with pairwise-distinct ids
that respects the cap: the feed stays within the configured cap (the
`DEFAULT_ACTIVITY_FEED_LIMIT = 200` when `max_items` is zero), the pushed
entry sits at position 0, ids stay pairwise distinct, and pushing an entry
whose id already occurs keeps the length unchanged and produces exactly the
new entry followed by the old feed with the previous occurrence removed. -/
theorem push_activity_dedupe_cap
    (st : SupervisorState) (entry : SupervisorActivityEntry) (max_items : Nat)
    (hnodup : (st.activity_feed.map (·.id)).Nodup)
    (hlen : st.activity_feed.length ≤
      (if max_items = 0 then DEFAULT_ACTIVITY_FEED_LIMIT else max_items)) :
    (applyUpdate st (.pushActivity entry max_items)).activity_feed.length ≤
      (if max_items = 0 then DEFAULT_ACTIVITY_FEED_LIMIT else max_items) ∧
    (applyUpdate st (.pushActivity entry max_items)).activity_feed.head? = some entry ∧
    ((applyUpdate st (.pushActivity entry max_items)).activity_feed.map (·.id)).Nodup ∧
    (entry.id ∈ st.activity_feed.map (·.id) →
      (applyUpdate st (.pushActivity entry max_items)).activity_feed.length =
        st.activity_feed.length ∧
      (applyUpdate st (.pushActivity entry max_items)).activity_feed =
        entry :: removeFirstBy (fun item => item.id == entry.id) st.activity_feed) := by
  have hfeed : (applyUpdate st (.pushActivity entry max_items)).activity_feed =
      pushActivityList st.activity_feed entry max_items := rfl
  rw [hfeed]
  set limit := (if max_items = 0 then DEFAULT_ACTIVITY_FEED_LIMIT else max_items) with hlimit
  have hlim_pos : 0 < limit := by
    rw [hlimit]
    by_cases h0 : max_items = 0
    · rw [if_pos h0]
      norm_num [DEFAULT_ACTIVITY_FEED_LIMIT]
    · rw [if_neg h0]
      exact Nat.pos_of_ne_zero h0
  have hLnodup :
      ((entry :: removeFirstBy (fun item => item.id == entry.id) st.activity_feed).map
        (·.id)).Nodup := by
    rw [List.map_cons]
    refine List.nodup_cons.mpr ⟨?_, ?_⟩
    · exact not_mem_removeFirstById (fun a : SupervisorActivityEntry => a.id) hnodup
    · exact hnodup.sublist
        ((removeFirstBy_sublist (fun item => item.id == entry.id)
          st.activity_feed).map (fun a => a.id))
  have hmem_len : entry.id ∈ st.activity_feed.map (·.id) →
      (entry :: removeFirstBy (fun item => item.id == entry.id)
        st.activity_feed).length = st.activity_feed.length := by
    intro hmem
    rcases List.mem_map.mp hmem with ⟨a, hamem, haid⟩
    have hw : ∃ x ∈ st.activity_feed, (fun item => item.id == entry.id) x = true :=
      ⟨a, hamem, beq_iff_eq.mpr haid⟩
    rw [List.length_cons, length_removeFirstBy_of_mem hw]
  unfold pushActivityList
  rw [← hlimit]
  by_cases hgt :
      (entry :: removeFirstBy (fun item => item.id == entry.id)
        st.activity_feed).length > limit
  · rw [if_pos hgt]
    refine ⟨?_, ?_, ?_, ?_⟩
    · rw [List.length_take]
      exact Nat.min_le_left _ _
    · obtain ⟨m, hm⟩ := Nat.exists_eq_succ_of_ne_zero (Nat.pos_iff_ne_zero.mp hlim_pos)
      rw [hm, List.take_succ_cons]
      rfl
    · rw [List.map_take]
      exact hLnodup.sublist (List.take_sublist _ _)
    · intro hmem
      exact absurd (Nat.lt_of_lt_of_le (hmem_len hmem ▸ hgt) hlen).false
        (fun h => h)
  · rw [if_neg hgt]
    refine ⟨Nat.le_of_not_lt hgt, rfl, hLnodup, ?_⟩
    intro hmem
    exact ⟨hmem_len hmem, rfl⟩

/-- A concrete one-entry feed used by the C6 witness. -/
abbrev c6FeedState : SupervisorState :=
  { activity_feed := [
      { id := "a-1", kind := "turn_started",
        message := "started", created_at_ms := 10 }] }

/-- A concrete replacement entry (same id, new payload) for the C6 witness. -/
abbrev c6Entry : SupervisorActivityEntry :=
  { id := "a-1", kind := "turn_started", message := "started-again",
    created_at_ms := 12 }

/-- Witness for C6 at a concrete input: a one-entry feed receiving a new
payload under an existing id. -/
theorem push_activity_dedupe_cap_witness :
    ((c6FeedState.activity_feed.map (·.id)).Nodup ∧
      c6FeedState.activity_feed.length ≤
        (if (2 : Nat) = 0 then DEFAULT_ACTIVITY_FEED_LIMIT else 2)) ∧
    (applyUpdate c6FeedState (.pushActivity c6Entry 2)).activity_feed.head? =
      some c6Entry := by
  refine ⟨⟨by decide, by decide⟩, ?_⟩
  exact (push_activity_dedupe_cap c6FeedState c6Entry 2 (by decide) (by decide)).2.1

/-! ## Claim C1: the job `WaitingForUser ⇔ waiting_request_id` invariant -/

/-- The job invariant stated by the spec:
`status = WaitingForUser ⇔ waiting_request_id ≠ None` for every job. -/
def jobInvariant (st : SupervisorState) : Prop :=
  ∀ p ∈ st.jobs,
    ((p : String × SupervisorJobState).2.status = SupervisorJobStatus.waitingForUser ↔
      p.2.waiting_request_id ≠ none)

instance (st : SupervisorState) : Decidable (jobInvariant st) :=
  inferInstanceAs (Decidable (∀ p ∈ st.jobs,
    ((p : String × SupervisorJobState).2.status = SupervisorJobStatus.waitingForUser ↔
      p.2.waiting_request_id ≠ none)))

theorem jobInvariant_of_jobs_eq {st st' : SupervisorState} (h : st'.jobs = st.jobs)
    (hinv : jobInvariant st) : jobInvariant st' :=
  fun p hp => hinv p (h ▸ hp)

theorem appendSubtaskEvent_status (j : SupervisorJobState) (e : SupervisorSubtaskEvent) :
    (SupervisorLoop.appendSubtaskEvent j e).1.status = j.status := by
  unfold SupervisorLoop.appendSubtaskEvent
  split <;> rfl

theorem appendSubtaskEvent_waiting (j : SupervisorJobState) (e : SupervisorSubtaskEvent) :
    (SupervisorLoop.appendSubtaskEvent j e).1.waiting_request_id = j.waiting_request_id := by
  unfold SupervisorLoop.appendSubtaskEvent
  split <;> rfl

theorem jobInvariant_ite {c : Prop} [Decidable c] {a b : SupervisorLoop}
    (ha : jobInvariant a.state) (hb : jobInvariant b.state) :
    jobInvariant (if c then a else b).state := by
  by_cases h : c
  · rw [if_pos h]
    exact ha
  · rw [if_neg h]
    exact hb

theorem upsertJob_invariant {st : SupervisorState} (hinv : jobInvariant st)
    {j : SupervisorJobState}
    (hj : j.status = SupervisorJobStatus.waitingForUser ↔ j.waiting_request_id ≠ none) :
    jobInvariant (applyUpdate st (.upsertJob j)) := by
  intro p hp
  rcases mem_upsertA hp with h | h
  · rw [h]
    exact hj
  · exact hinv p h

/-- C1 (amended).  The loop operations that the code does keep aligned with
the invariant: the `UserInputRequested` handler, the `TurnCompleted`
handler, and both reply-delivery operations preserve
`status = WaitingForUser ⇔ waiting_request_id ≠ None` for every job.
(The `ApprovalRequested`, `TurnStarted`, `ItemStarted`, `ItemCompleted`
and `Error` handlers do not; see the counterexample.) -/
theorem job_waiting_invariant_events (lp : SupervisorLoop)
    (hinv : jobInvariant lp.state) :
    (∀ workspace_id request_key request_id request_id_value thread_id turn_id item_id
        question question_ids params received_at_ms,
      jobInvariant (lp.applySupervisorEvent
        (.userInputRequested workspace_id request_key request_id request_id_value
          thread_id turn_id item_id question question_ids params
          received_at_ms)).state) ∧
    (∀ workspace_id thread_id turn_id task received_at_ms,
      jobInvariant (lp.applySupervisorEvent
        (.turnCompleted workspace_id thread_id turn_id task received_at_ms)).state) ∧
    (∀ job_id request_id reply_preview delivered_at_ms lp',
      lp.markReplyDelivered job_id request_id reply_preview delivered_at_ms = .ok lp' →
      jobInvariant lp'.state) ∧
    (∀ job_id request_id err failed_at_ms,
      jobInvariant (lp.markReplyDeliveryFailed job_id request_id err failed_at_ms).state) := by
  refine ⟨?_, ?_, ?_, ?_⟩
  · intro workspace_id request_key request_id request_id_value thread_id turn_id item_id
      question question_ids params received_at_ms
    simp only [SupervisorLoop.applySupervisorEvent]
    split
    · exact jobInvariant_of_jobs_eq rfl hinv
    · split
      all_goals
        intro p hp
        rcases mem_upsertA hp with h | h
        · rw [h]
          rw [show ∀ q : String × SupervisorJobState, q.2 = q.snd from fun _ => rfl]
          rw [appendSubtaskEvent_status, appendSubtaskEvent_waiting]
          exact iff_of_true rfl (fun hh => Option.noConfusion hh)
        · exact hinv p h
  · intro workspace_id thread_id turn_id task received_at_ms
    simp only [SupervisorLoop.applySupervisorEvent]
    split
    · exact jobInvariant_of_jobs_eq rfl hinv
    · split
      all_goals
        intro p hp
        rcases mem_upsertA hp with h | h
        · rw [h]
          rw [show ∀ q : String × SupervisorJobState, q.2 = q.snd from fun _ => rfl]
          rw [appendSubtaskEvent_status, appendSubtaskEvent_waiting]
          exact iff_of_false (fun hh => SupervisorJobStatus.noConfusion hh)
            (fun hh => hh rfl)
        · exact hinv p h
  · intro job_id request_id reply_preview delivered_at_ms lp' h
    unfold SupervisorLoop.markReplyDelivered at h
    split at h
    · cases h
    · split at h
      · cases h
      · split at h
        · cases h
        · split at h
          · cases h
          · injection h with he
            subst he
            intro p hp
            rcases mem_upsertA hp with h | h
            · rw [h]
              rw [show ∀ q : String × SupervisorJobState, q.2 = q.snd from fun _ => rfl]
              rw [appendSubtaskEvent_status, appendSubtaskEvent_waiting]
              exact iff_of_false (fun hh => SupervisorJobStatus.noConfusion hh)
                (fun hh => hh rfl)
            · exact hinv p h
  · intro job_id request_id err failed_at_ms
    unfold SupervisorLoop.markReplyDeliveryFailed
    split
    · exact hinv
    · next existing hfound =>
      refine jobInvariant_ite ?_ ?_
      all_goals
        intro p hp
        rcases mem_upsertA hp with h | h
        · rw [h]
          rw [show ∀ q : String × SupervisorJobState, q.2 = q.snd from fun _ => rfl]
          rw [appendSubtaskEvent_status, appendSubtaskEvent_waiting]
          exact hinv (job_id, existing) (lookupA_mem hfound)
        · exact hinv p h

/-- A tracked running job (as created by a dispatch) for the C1
counterexample. -/
abbrev c1RunningJob : SupervisorJobState :=
  { id := "job-1", workspace_id := "ws-1", thread_id := some "thread-1",
    description := "Tracked subtask", status := .running, requested_at_ms := 1,
    started_at_ms := some 2 }

abbrev c1RunningLoop : SupervisorLoop :=
  { state := { jobs := [("job-1", c1RunningJob)] } }

/-- A job waiting for user input (with its request id set) for the C1
counterexample. -/
abbrev c1WaitingJob : SupervisorJobState :=
  { id := "job-2", workspace_id := "ws-2", thread_id := some "thread-2",
    description := "Waiting subtask", status := .waitingForUser, requested_at_ms := 1,
    waiting_request_id := some (.str "req-7"), waiting_question_ids := ["q-1"] }

abbrev c1WaitingLoop : SupervisorLoop :=
  { state := { jobs := [("job-2", c1WaitingJob)] } }

/-- Counterexample to C1 as stated: from a state satisfying the invariant,
the `ApprovalRequested` handler produces a job with
`status = WaitingForUser` and `waiting_request_id = None`, and the
`TurnStarted` handler produces a job with `status = Running` and
`waiting_request_id ≠ None` — each breaking one direction of the
equivalence. -/
theorem job_waiting_invariant_counterexample :
    jobInvariant c1RunningLoop.state ∧
    ¬ jobInvariant (c1RunningLoop.applySupervisorEvent
      (.approvalRequested "ws-1" "ws-1:42" "42" "workspace/requestApproval"
        (some "thread-1") (some "turn-1") (some "item-1")
        (jobj [("mode", .str "full")]) 100)).state ∧
    jobInvariant c1WaitingLoop.state ∧
    ¬ jobInvariant (c1WaitingLoop.applySupervisorEvent
      (.turnStarted "ws-2" "thread-2" "turn-9" none 200)).state :=
  ⟨by decide, by decide, by decide, by decide⟩

/-- Witness for the amended C1 at a concrete input: the `TurnCompleted`
handler applied to the tracked running job keeps the invariant. -/
theorem job_waiting_invariant_events_witness :
    jobInvariant c1RunningLoop.state ∧
    jobInvariant (c1RunningLoop.applySupervisorEvent
      (.turnCompleted "ws-1" "thread-1" "turn-1" none 300)).state :=
  ⟨by decide,
    (job_waiting_invariant_events c1RunningLoop (by decide)).2.1
      "ws-1" "thread-1" "turn-1" none 300⟩

/-! ## Dispatch executor (`shared/supervisor_core/dispatch.rs`) -/

/-- `SupervisorDispatchAction`. -/
structure SupervisorDispatchAction where
  action_id : String
  workspace_id : String
  thread_id : Option String := none
  prompt : String
  dedupe_key : Option String := none
  model : Option String := none
  effort : Option String := none
  access_mode : Option String := none
  route_kind : Option String := none
  route_reason : Option String := none
  route_fallback : Option String := none
  deriving DecidableEq

/-- `SupervisorDispatchStatus`. -/
inductive SupervisorDispatchStatus where
  | dispatched
  | failed
  deriving DecidableEq

/-- `SupervisorDispatchActionResult`. -/
structure SupervisorDispatchActionResult where
  action_id : String
  workspace_id : String
  dedupe_key : String
  status : SupervisorDispatchStatus
  thread_id : Option String := none
  turn_id : Option String := none
  error : Option String := none
  idempotent_replay : Bool := false
  deriving DecidableEq

/-- The idempotency store (`BTreeMap<String, SupervisorDispatchActionResult>`). -/
abbrev DispatchStore : Type := List (String × SupervisorDispatchActionResult)

/-- One backend invocation, recorded for call accounting. -/
inductive DispatchCall where
  | startThread (workspace_id : String)
  | resumeThread (workspace_id thread_id : String)
  | startTurn (workspace_id thread_id prompt : String)
      (model effort access_mode : Option String)
  deriving DecidableEq

/-- The `SupervisorDispatchBackend` trait as a record of pure functions
(each returning a response or a transport error). -/
structure SupervisorDispatchBackend where
  start_thread : String → Except String JsonVal
  resume_thread : String → String → Except String JsonVal
  start_turn : String → String → String → Option String → Option String →
    Option String → Except String JsonVal

/-- `response_error_message`. -/
def response_error_message (response : JsonVal) : Option String :=
  match response.getKey "error" with
  | none => none
  | some err =>
    match (((err.getKey "message").bind JsonVal.asStr).map rustTrim).filter
        (fun m => !m.isEmpty) with
    | some message => some message
    | none =>
      match (err.asStr.map rustTrim).filter (fun m => !m.isEmpty) with
      | some message => some message
      | none => some err.render

/-- `extract_thread_id`. -/
def extract_thread_id (response : JsonVal) : Option String :=
  (((response.getKey "result").bind (fun result =>
      ((result.getKey "threadId").orElse (fun _ =>
        (result.getKey "thread").bind (fun thread => thread.getKey "id"))).bind
        JsonVal.asStr))).orElse (fun _ =>
    ((response.getKey "threadId").orElse (fun _ =>
      (response.getKey "thread").bind (fun thread => thread.getKey "id"))).bind
      JsonVal.asStr)

/-- `extract_turn_id`. -/
def extract_turn_id (response : JsonVal) : Option String :=
  (((response.getKey "result").bind (fun result =>
      ((result.getKey "turnId").orElse (fun _ =>
        (result.getKey "turn").bind (fun turn => turn.getKey "id"))).bind
        JsonVal.asStr))).orElse (fun _ =>
    ((response.getKey "turnId").orElse (fun _ =>
      (response.getKey "turn").bind (fun turn => turn.getKey "id"))).bind
      JsonVal.asStr)

/-- `NormalizedDispatchAction`. -/
structure NormalizedDispatchAction where
  action_id : String
  workspace_id : String
  thread_id : Option String
  prompt : String
  dedupe_token : String
  model : Option String
  effort : Option String
  access_mode : Option String
  deriving DecidableEq

/-- `NormalizedDispatchAction::idempotency_key`. -/
def NormalizedDispatchAction.idempotency_key (a : NormalizedDispatchAction) : String :=
  a.workspace_id ++ ":" ++ a.dedupe_token

/-- `normalize_optional` (dispatch.rs). -/
def normalizeOptional (value : Option String) : Option String :=
  value.bind (fun v =>
    let trimmed := rustTrim v
    if trimmed.isEmpty then none else some trimmed)

/-- `normalize_access_mode`. -/
def normalizeAccessMode (value : Option String) : Except String (Option String) :=
  match normalizeOptional value with
  | none => .ok none
  | some v =>
    if v = "read-only" ∨ v = "current" ∨ v = "full-access" then .ok (some v)
    else .error "access_mode must be one of `read-only`, `current`, or `full-access`"

/-- `NormalizedDispatchAction::try_from`. -/
def normalizeDispatchAction (value : SupervisorDispatchAction) :
    Except String NormalizedDispatchAction :=
  let action_id := rustTrim value.action_id
  if action_id.isEmpty then .error "action_id is required"
  else
    let workspace_id := rustTrim value.workspace_id
    if workspace_id.isEmpty then .error "workspace_id is required"
    else
      let prompt := rustTrim value.prompt
      if prompt.isEmpty then .error "prompt is required"
      else
        let thread_id := value.thread_id.bind (fun t =>
          let trimmed := rustTrim t
          if trimmed.isEmpty then none else some trimmed)
        let dedupe_token :=
          match (value.dedupe_key.map rustTrim).filter (fun t => !t.isEmpty) with
          | some token => token
          | none => action_id
        match normalizeAccessMode value.access_mode with
        | .error e => .error e
        | .ok access_mode =>
          .ok { action_id := action_id, workspace_id := workspace_id,
                thread_id := thread_id, prompt := prompt,
                dedupe_token := dedupe_token,
                model := normalizeOptional value.model,
                effort := normalizeOptional value.effort,
                access_mode := access_mode }

/-- `failed_dispatch_result`. -/
def failedDispatchResult (action : NormalizedDispatchAction) (error : String)
    (thread_id turn_id : Option String) (idempotent_replay : Bool) :
    SupervisorDispatchActionResult :=
  { action_id := action.action_id
    workspace_id := action.workspace_id
    dedupe_key := action.dedupe_token
    status := .failed
    thread_id := thread_id
    turn_id := turn_id
    error := some error
    idempotent_replay := idempotent_replay }

/-- `SupervisorDispatchExecutor::ensure_thread`, also returning the backend
calls it performs. -/
def ensureThread (backend : SupervisorDispatchBackend)
    (action : NormalizedDispatchAction) : Except String String × List DispatchCall :=
  match action.thread_id with
  | some thread_id =>
    let calls := [DispatchCall.resumeThread action.workspace_id thread_id]
    match backend.resume_thread action.workspace_id thread_id with
    | .error e => (.error e, calls)
    | .ok response =>
      match response_error_message response with
      | some e => (.error e, calls)
      | none => (.ok ((extract_thread_id response).getD thread_id), calls)
  | none =>
    let calls := [DispatchCall.startThread action.workspace_id]
    match backend.start_thread action.workspace_id with
    | .error e => (.error e, calls)
    | .ok response =>
      match response_error_message response with
      | some e => (.error e, calls)
      | none =>
        match extract_thread_id response with
        | some thread_id => (.ok thread_id, calls)
        | none =>
          (.error ("thread/start response did not include threadId for workspace `" ++
            action.workspace_id ++ "`"), calls)

/-- `SupervisorDispatchExecutor::dispatch_normalized`, also returning the
backend calls it performs. -/
def dispatchNormalized (backend : SupervisorDispatchBackend)
    (action : NormalizedDispatchAction) :
    SupervisorDispatchActionResult × List DispatchCall :=
  match ensureThread backend action with
  | (.error e, calls) => (failedDispatchResult action e none none false, calls)
  | (.ok thread_id, calls) =>
    let calls := calls ++ [DispatchCall.startTurn action.workspace_id thread_id
      action.prompt action.model action.effort action.access_mode]
    match backend.start_turn action.workspace_id thread_id action.prompt
        action.model action.effort action.access_mode with
    | .error e => (failedDispatchResult action e (some thread_id) none false, calls)
    | .ok turn_response =>
      match response_error_message turn_response with
      | some e => (failedDispatchResult action e (some thread_id) none false, calls)
      | none =>
        ({ action_id := action.action_id
           workspace_id := action.workspace_id
           dedupe_key := action.dedupe_token
           status := .dispatched
           thread_id := some thread_id
           turn_id := extract_turn_id turn_response
           error := none
           idempotent_replay := false }, calls)

/-- `SupervisorDispatchExecutor::dispatch_action`: result, next idempotency
store, and the backend calls performed. -/
def dispatchAction (store : DispatchStore) (backend : SupervisorDispatchBackend)
    (action : SupervisorDispatchAction) :
    SupervisorDispatchActionResult × DispatchStore × List DispatchCall :=
  match normalizeDispatchAction action with
  | .error e =>
    ({ action_id := action.action_id
       workspace_id := action.workspace_id
       dedupe_key := action.dedupe_key.getD ""
       status := .failed
       thread_id := none
       turn_id := none
       error := some e
       idempotent_replay := false }, store, [])
  | .ok normalized =>
    match lookupA normalized.idempotency_key store with
    | some cached =>
      ({ cached with action_id := normalized.action_id, idempotent_replay := true },
        store, [])
    | none =>
      let outcome := dispatchNormalized backend normalized
      (outcome.1, upsertA normalized.idempotency_key outcome.1 store, outcome.2)

/-- `SupervisorDispatchExecutor::dispatch_batch`: per-action results in
input order, final store, and all backend calls. -/
def dispatchBatch (backend : SupervisorDispatchBackend) :
    DispatchStore → List SupervisorDispatchAction →
    List SupervisorDispatchActionResult × DispatchStore × List DispatchCall
  | store, [] => ([], store, [])
  | store, action :: rest =>
    let outcome := dispatchAction store backend action
    let restOutcome := dispatchBatch backend outcome.2.1 rest
    (outcome.1 :: restOutcome.1, restOutcome.2.1, outcome.2.2 ++ restOutcome.2.2)

/-! ## Claims C2 and C10: dispatch idempotency -/

theorem dispatchNormalized_not_replay (backend : SupervisorDispatchBackend)
    (n : NormalizedDispatchAction) :
    (dispatchNormalized backend n).1.idempotent_replay = false := by
  unfold dispatchNormalized
  split
  · rfl
  · split
    · rfl
    · split <;> rfl

theorem dispatchAction_preserves {k : String} {r : SupervisorDispatchActionResult}
    {store : DispatchStore} (h : lookupA k store = some r)
    (backend : SupervisorDispatchBackend) (a : SupervisorDispatchAction) :
    lookupA k (dispatchAction store backend a).2.1 = some r := by
  unfold dispatchAction
  split
  · exact h
  · next normalized _ =>
    split
    · exact h
    · next hl =>
      have hne : k ≠ normalized.idempotency_key := by
        intro he
        rw [he] at h
        rw [h] at hl
        cases hl
      rw [lookupA_upsertA_ne hne]
      exact h

theorem dispatchBatch_preserves {k : String} {r : SupervisorDispatchActionResult}
    (backend : SupervisorDispatchBackend) :
    ∀ (actions : List SupervisorDispatchAction) (store : DispatchStore),
    lookupA k store = some r →
    lookupA k (dispatchBatch backend store actions).2.1 = some r := by
  intro actions
  induction actions with
  | nil => intro store h; exact h
  | cons a rest ih =>
    intro store h
    exact ih _ (dispatchAction_preserves h backend a)

theorem dispatchAction_fresh {store : DispatchStore}
    {a : SupervisorDispatchAction} {n : NormalizedDispatchAction}
    (hn : normalizeDispatchAction a = .ok n)
    (hfresh : lookupA n.idempotency_key store = none)
    (backend : SupervisorDispatchBackend) :
    dispatchAction store backend a =
      ((dispatchNormalized backend n).1,
        upsertA n.idempotency_key (dispatchNormalized backend n).1 store,
        (dispatchNormalized backend n).2) := by
  unfold dispatchAction
  rw [hn]
  simp only [hfresh]

theorem dispatchAction_replay {store : DispatchStore}
    {a : SupervisorDispatchAction} {n : NormalizedDispatchAction}
    {r : SupervisorDispatchActionResult}
    (hn : normalizeDispatchAction a = .ok n)
    (hhit : lookupA n.idempotency_key store = some r)
    (backend : SupervisorDispatchBackend) :
    dispatchAction store backend a =
      ({ r with action_id := n.action_id, idempotent_replay := true }, store, []) := by
  unfold dispatchAction
  rw [hn]
  simp only [hhit]

/-- C2 (amended).  For two dispatch actions that both pass normalization
and share the idempotency key (workspace_id : dedupe token), dispatched
through the same executor with any batches in between: the second result
is the first result with only `action_id` (set to the replaying action's
trimmed id) and `idempotent_replay` (true) changed, the first execution is
not a replay, and the replayed action performs no backend calls. -/
theorem dispatch_idempotent_replay
    (store0 : DispatchStore) (b1 b2 b3 : SupervisorDispatchBackend)
    (a1 a2 : SupervisorDispatchAction) (mid : List SupervisorDispatchAction)
    (n1 n2 : NormalizedDispatchAction)
    (h1 : normalizeDispatchAction a1 = .ok n1)
    (h2 : normalizeDispatchAction a2 = .ok n2)
    (hkey : n2.idempotency_key = n1.idempotency_key)
    (hfresh : lookupA n1.idempotency_key store0 = none) :
    (dispatchAction (dispatchBatch b2 (dispatchAction store0 b1 a1).2.1 mid).2.1
        b3 a2).1 =
      { (dispatchAction store0 b1 a1).1 with
        action_id := n2.action_id, idempotent_replay := true } ∧
    (dispatchAction store0 b1 a1).1.idempotent_replay = false ∧
    (dispatchAction (dispatchBatch b2 (dispatchAction store0 b1 a1).2.1 mid).2.1
        b3 a2).2.2 = [] := by
  have hfirst := dispatchAction_fresh h1 hfresh b1
  have hstored : lookupA n1.idempotency_key (dispatchAction store0 b1 a1).2.1 =
      some (dispatchAction store0 b1 a1).1 := by
    rw [hfirst]
    exact lookupA_upsertA_self _ _ _
  have hmid : lookupA n2.idempotency_key
      (dispatchBatch b2 (dispatchAction store0 b1 a1).2.1 mid).2.1 =
      some (dispatchAction store0 b1 a1).1 := by
    rw [hkey]
    exact dispatchBatch_preserves b2 mid _ hstored
  have hreplay := dispatchAction_replay h2 hmid b3
  refine ⟨?_, ?_, ?_⟩
  · rw [hreplay]
  · rw [hfirst]
    exact dispatchNormalized_not_replay b1 n1
  · rw [hreplay]

/-- A stub backend mirroring the source's `MockDispatchBackend`: thread and
turn ids derived from the workspace id, no errors. -/
abbrev okStubBackend : SupervisorDispatchBackend :=
  { start_thread := fun w =>
      .ok (jobj [("result", jobj [("threadId", .str ("thread-" ++ w))])])
    resume_thread := fun _ t =>
      .ok (jobj [("result", jobj [("threadId", .str t)])])
    start_turn := fun w t _ _ _ _ =>
      .ok (jobj [("result", jobj [("turnId", .str ("turn-" ++ w ++ "-" ++ t))])]) }

/-- The dedupe token of an action as worded by the claim: the trimmed
`dedupe_key` when present and non-empty, else the trimmed `action_id`. -/
def claimDedupeToken (a : SupervisorDispatchAction) : String :=
  match (a.dedupe_key.map rustTrim).filter (fun t => !t.isEmpty) with
  | some token => token
  | none => rustTrim a.action_id

abbrev c2Action1 : SupervisorDispatchAction :=
  { action_id := "action-1", workspace_id := "ws-1", prompt := "Run check",
    dedupe_key := some "dispatch-1" }

abbrev c2Action2 : SupervisorDispatchAction :=
  { action_id := "action-2", workspace_id := "ws-1", prompt := "   ",
    dedupe_key := some "dispatch-1" }

/-- Counterexample to C2 as stated: two actions with identical
(workspace_id, dedupe token), where the second fails normalization (blank
prompt): the second result differs from the first in `status` (Failed vs
Dispatched), not only in `action_id`/`idempotent_replay`. -/
theorem dispatch_idempotent_replay_counterexample :
    (c2Action1.workspace_id, claimDedupeToken c2Action1) =
      (c2Action2.workspace_id, claimDedupeToken c2Action2) ∧
    ((dispatchBatch okStubBackend [] [c2Action1, c2Action2]).1.map (·.status)) =
      [.dispatched, .failed] ∧
    ((dispatchBatch okStubBackend [] [c2Action1, c2Action2]).1.map
      (·.idempotent_replay)) = [false, false] := by
  refine ⟨by decide, by decide, by decide⟩

abbrev c2GoodAction1 : SupervisorDispatchAction :=
  { action_id := "action-1", workspace_id := "ws-1", prompt := "Task",
    dedupe_key := some "dup" }

abbrev c2GoodAction2 : SupervisorDispatchAction :=
  { action_id := "action-2", workspace_id := "ws-1", prompt := "Task duplicate",
    dedupe_key := some "dup" }

abbrev c2Norm1 : NormalizedDispatchAction :=
  { action_id := "action-1", workspace_id := "ws-1", thread_id := none,
    prompt := "Task", dedupe_token := "dup", model := none, effort := none,
    access_mode := none }

abbrev c2Norm2 : NormalizedDispatchAction :=
  { action_id := "action-2", workspace_id := "ws-1", thread_id := none,
    prompt := "Task duplicate", dedupe_token := "dup", model := none,
    effort := none, access_mode := none }

/-- Witness for the amended C2 at a concrete input: a same-batch replay. -/
theorem dispatch_idempotent_replay_witness :
    (normalizeDispatchAction c2GoodAction1 = .ok c2Norm1 ∧
      normalizeDispatchAction c2GoodAction2 = .ok c2Norm2 ∧
      c2Norm2.idempotency_key = c2Norm1.idempotency_key ∧
      lookupA c2Norm1.idempotency_key ([] : DispatchStore) = none) ∧
    ((dispatchAction (dispatchBatch okStubBackend
        (dispatchAction [] okStubBackend c2GoodAction1).2.1 []).2.1
        okStubBackend c2GoodAction2).1 =
      { (dispatchAction [] okStubBackend c2GoodAction1).1 with
        action_id := c2Norm2.action_id, idempotent_replay := true } ∧
      (dispatchAction [] okStubBackend c2GoodAction1).1.idempotent_replay = false ∧
      (dispatchAction (dispatchBatch okStubBackend
        (dispatchAction [] okStubBackend c2GoodAction1).2.1 []).2.1
        okStubBackend c2GoodAction2).2.2 = []) := by
  refine ⟨⟨by decide, by decide, by decide, by decide⟩, ?_⟩
  exact dispatch_idempotent_replay [] okStubBackend okStubBackend okStubBackend
    c2GoodAction1 c2GoodAction2 [] c2Norm1 c2Norm2
    (by decide) (by decide) (by decide) (by decide)

/-- C10.  The idempotency store records results only for actions that pass
normalization.  (i) A normalization-rejected action yields a Failed result
with the raw ids, leaves the store untouched, and performs no backend
calls; (ii) a normalized action with a fresh key executes the backend
dispatch and stores its result (success or failure alike) under the key;
(iii) a normalized action whose key is cached replays the cached result
with no backend calls; (iv) hence after a rejected action, a later action
with the same key still executes afresh; (v) and after a backend-failed
dispatch, a later action with that key replays the Failed result with no
backend calls. -/
theorem dispatch_normalization_store_boundary :
    (∀ (store : DispatchStore) (backend : SupervisorDispatchBackend)
        (a : SupervisorDispatchAction) (e : String),
      normalizeDispatchAction a = .error e →
      dispatchAction store backend a =
        ({ action_id := a.action_id, workspace_id := a.workspace_id,
           dedupe_key := a.dedupe_key.getD "", status := .failed,
           thread_id := none, turn_id := none, error := some e,
           idempotent_replay := false }, store, [])) ∧
    (∀ (store : DispatchStore) (backend : SupervisorDispatchBackend)
        (a : SupervisorDispatchAction) (n : NormalizedDispatchAction),
      normalizeDispatchAction a = .ok n →
      lookupA n.idempotency_key store = none →
      dispatchAction store backend a =
        ((dispatchNormalized backend n).1,
          upsertA n.idempotency_key (dispatchNormalized backend n).1 store,
          (dispatchNormalized backend n).2)) ∧
    (∀ (store : DispatchStore) (backend : SupervisorDispatchBackend)
        (a : SupervisorDispatchAction) (n : NormalizedDispatchAction)
        (r : SupervisorDispatchActionResult),
      normalizeDispatchAction a = .ok n →
      lookupA n.idempotency_key store = some r →
      dispatchAction store backend a =
        ({ r with action_id := n.action_id, idempotent_replay := true }, store, [])) ∧
    (∀ (store : DispatchStore) (b1 b2 : SupervisorDispatchBackend)
        (a a' : SupervisorDispatchAction) (e : String) (n' : NormalizedDispatchAction),
      normalizeDispatchAction a = .error e →
      normalizeDispatchAction a' = .ok n' →
      lookupA n'.idempotency_key store = none →
      (dispatchAction (dispatchAction store b1 a).2.1 b2 a').1 =
        (dispatchNormalized b2 n').1) ∧
    (∀ (store : DispatchStore) (b1 b2 : SupervisorDispatchBackend)
        (a a' : SupervisorDispatchAction) (n n' : NormalizedDispatchAction),
      normalizeDispatchAction a = .ok n →
      lookupA n.idempotency_key store = none →
      (dispatchNormalized b1 n).1.status = .failed →
      normalizeDispatchAction a' = .ok n' →
      n'.idempotency_key = n.idempotency_key →
      (dispatchAction (dispatchAction store b1 a).2.1 b2 a').1 =
        { (dispatchNormalized b1 n).1 with
          action_id := n'.action_id, idempotent_replay := true } ∧
      (dispatchAction (dispatchAction store b1 a).2.1 b2 a').2.2 = []) := by
  have hreject : ∀ (store : DispatchStore) (backend : SupervisorDispatchBackend)
      (a : SupervisorDispatchAction) (e : String),
      normalizeDispatchAction a = .error e →
      dispatchAction store backend a =
        ({ action_id := a.action_id, workspace_id := a.workspace_id,
           dedupe_key := a.dedupe_key.getD "", status := .failed,
           thread_id := none, turn_id := none, error := some e,
           idempotent_replay := false }, store, []) := by
    intro store backend a e he
    unfold dispatchAction
    rw [he]
  refine ⟨hreject, ?_, ?_, ?_, ?_⟩
  · intro store backend a n hn hfresh
    exact dispatchAction_fresh hn hfresh backend
  · intro store backend a n r hn hhit
    exact dispatchAction_replay hn hhit backend
  · intro store b1 b2 a a' e n' he hn' hfresh
    rw [hreject store b1 a e he]
    rw [dispatchAction_fresh hn' hfresh b2]
  · intro store b1 b2 a a' n n' hn hfresh _ hn' hkey
    have hfirst := dispatchAction_fresh hn hfresh b1
    have hstored : lookupA n'.idempotency_key (dispatchAction store b1 a).2.1 =
        some (dispatchNormalized b1 n).1 := by
      rw [hkey, hfirst]
      exact lookupA_upsertA_self _ _ _
    have hreplay := dispatchAction_replay hn' hstored b2
    rw [hreplay]
    exact ⟨rfl, rfl⟩

/-- A backend whose turn start fails, for the C10 witness. -/
abbrev failTurnBackend : SupervisorDispatchBackend :=
  { start_thread := fun w =>
      .ok (jobj [("result", jobj [("threadId", .str ("thread-" ++ w))])])
    resume_thread := fun _ t =>
      .ok (jobj [("result", jobj [("threadId", .str t)])])
    start_turn := fun _ _ _ _ _ _ =>
      .ok (jobj [("error", jobj [("message", .str "turn rejected")])]) }

/-- Witness for C10 at concrete inputs: a rejected action leaves the store
untouched, and a backend-failed dispatch is stored and replayed without
backend calls. -/
theorem dispatch_normalization_store_boundary_witness :
    (normalizeDispatchAction c2Action2 = .error "prompt is required" ∧
      dispatchAction [] okStubBackend c2Action2 =
        ({ action_id := "action-2", workspace_id := "ws-1",
           dedupe_key := "dispatch-1", status := .failed, thread_id := none,
           turn_id := none, error := some "prompt is required",
           idempotent_replay := false }, [], [])) ∧
    (normalizeDispatchAction c2GoodAction1 = .ok c2Norm1 ∧
      (dispatchNormalized failTurnBackend c2Norm1).1.status = .failed ∧
      (dispatchAction (dispatchAction [] failTurnBackend c2GoodAction1).2.1
          failTurnBackend c2GoodAction2).1 =
        { (dispatchNormalized failTurnBackend c2Norm1).1 with
          action_id := c2Norm2.action_id, idempotent_replay := true } ∧
      (dispatchAction (dispatchAction [] failTurnBackend c2GoodAction1).2.1
          failTurnBackend c2GoodAction2).2.2 = []) := by
  refine ⟨⟨by decide, ?_⟩, ⟨by decide, by decide, ?_⟩⟩
  · rw [dispatch_normalization_store_boundary.1 [] okStubBackend c2Action2
      "prompt is required" (by decide)]
    rfl
  · exact dispatch_normalization_store_boundary.2.2.2.2 [] failTurnBackend
      failTurnBackend c2GoodAction1 c2GoodAction2 c2Norm1 c2Norm2
      (by decide) (by decide) (by decide) (by decide) (by decide)

/-! ## Claim C9: the bridged agent-response summary -/

abbrev c9Job : SupervisorJobState :=
  { id := "job-1", workspace_id := "ws-1", thread_id := some "thread-1",
    description := "Tracked subtask", status := .running, requested_at_ms := 1,
    started_at_ms := some 2 }

abbrev c9Loop : SupervisorLoop :=
  { state := { jobs := [("job-1", c9Job)] } }

/-- C9 (amended).  The chat line bridged for an `agentMessage` completion
carrying content is the subtask prefix followed by `Agent response: ` and
`summarize_text(content, 240)`; that summary is the trimmed content
whenever it has at most 240 characters, and is never longer than 243
characters (240 content characters plus the `...` marker). -/
theorem agent_response_summary_bound :
    (∀ content : String, (summarizeText content 240).length ≤ 243) ∧
    (∀ content : String, (rustTrim content).length ≤ 240 →
      summarizeText content 240 = rustTrim content) ∧
    (∀ content : String,
      (c9Loop.applySupervisorEvent (.itemCompleted "ws-1" "thread-1" "item-1"
        (some "agentMessage") none (some content) 10)).state.chat_history.head? =
        some { id := "chat-bridge:item_completed:job-1:10",
               role := .system,
               text := "[subtask:job-1 ws:ws-1 thread:thread-1]" ++ " " ++
                 ("Agent response: " ++ summarizeText content 240),
               created_at_ms := 10 }) := by
  refine ⟨?_, ?_, ?_⟩
  · intro content
    simp only [summarizeText]
    by_cases h : (rustTrim content).length ≤ 240
    · rw [if_pos h]
      exact Nat.le_trans h (by norm_num)
    · rw [if_neg h]
      rw [String.length_append]
      have htake : (takeChars (rustTrim content) 240).length =
          min 240 (rustTrim content).length := by
        show (List.take 240 (rustTrim content).data).length = _
        rw [List.length_take]
        rfl
      rw [htake]
      have hmin : min 240 (rustTrim content).length ≤ 240 := Nat.min_le_left _ _
      have hdots : ("..." : String).length = 3 := rfl
      omega
  · intro content h
    simp only [summarizeText]
    rw [if_pos h]
  · intro content
    rfl

set_option maxRecDepth 4000 in
/-- Counterexample to C9 as stated: for a 241-character content string the
bridged summary has 243 characters, more than 240. -/
theorem agent_response_summary_counterexample :
    (summarizeText (String.mk (List.replicate 241 'a')) 240).length = 243 ∧
    ¬ (summarizeText (String.mk (List.replicate 241 'a')) 240).length ≤ 240 := by
  refine ⟨by decide, by decide⟩

/-- Witness for the amended C9 at a concrete input. -/
theorem agent_response_summary_bound_witness :
    (rustTrim "Deployment finished successfully").length ≤ 240 ∧
    summarizeText "Deployment finished successfully" 240 =
      rustTrim "Deployment finished successfully" :=
  ⟨by decide, agent_response_summary_bound.2.1 "Deployment finished successfully"
    (by decide)⟩

/-!
### Planner contract validation (`supervisor_core/contract.rs`)
-/

/-- `SUPERVISOR_ACTION_CONTRACT_VERSION`. -/
abbrev SUPERVISOR_ACTION_CONTRACT_VERSION : String := "supervisor.dispatch.v1"

/-- `SupervisorDispatchTurnAction` (contract.rs). -/
structure SupervisorDispatchTurnAction where
  action_id : String
  workspace_id : String
  prompt : String
  thread_id : Option String := none
  dedupe_key : Option String := none
  deriving DecidableEq

/-- `SupervisorPlannerAction`. -/
inductive SupervisorPlannerAction where
  | dispatchTurn (action : SupervisorDispatchTurnAction)
  deriving DecidableEq

/-- `SupervisorActionContract`. -/
structure SupervisorActionContract where
  version : String
  actions : List SupervisorPlannerAction
  deriving DecidableEq

/-- `ValidatedSupervisorActionContract`. -/
structure ValidatedSupervisorActionContract where
  version : String
  dispatch_actions : List SupervisorDispatchAction
  deriving DecidableEq

/-- `normalize_required` (contract.rs). -/
def normalize_required (field_name : String) (value : String) : Except String String :=
  let trimmed := rustTrim value
  if trimmed.isEmpty then .error (field_name ++ " is required")
  else .ok trimmed

/-- `normalize_dispatch_turn_action` (contract.rs); contract.rs's
`normalize_optional` is textually the same function as dispatch.rs's, so
`normalizeOptional` is reused. The extra optional fields of the dispatch action
stay at their `None` defaults, as in the source constructor. -/
def normalize_dispatch_turn_action (action : SupervisorDispatchTurnAction) :
    Except String SupervisorDispatchAction :=
  match normalize_required "action_id" action.action_id with
  | .error e => .error e
  | .ok action_id =>
    match normalize_required "workspace_id" action.workspace_id with
    | .error e => .error e
    | .ok workspace_id =>
      match normalize_required "prompt" action.prompt with
      | .error e => .error e
      | .ok prompt =>
        .ok { action_id := action_id, workspace_id := workspace_id, prompt := prompt,
              thread_id := normalizeOptional action.thread_id,
              dedupe_key := normalizeOptional action.dedupe_key }

/-- The `dedupe_token` computed inside `validate_supervisor_action_contract`
(lines 91-96) for a normalized dispatch action. -/
def contractDedupeToken (dispatch_action : SupervisorDispatchAction) : String :=
  match (dispatch_action.dedupe_key.map rustTrim).filter (fun v => !v.isEmpty) with
  | some token => token
  | none => dispatch_action.action_id

/-- The `for action in contract.actions` loop of
`validate_supervisor_action_contract` (lines 77-106), with the two `HashSet`s
passed explicitly as lists. -/
def validateContractActions : List SupervisorPlannerAction → List String → List String →
    Except String (List SupervisorDispatchAction)
  | [], _, _ => .ok []
  | action :: rest, seen_action_ids, seen_dedupe_keys =>
    match (match action with
           | .dispatchTurn a => normalize_dispatch_turn_action a) with
    | .error e => .error e
    | .ok dispatch_action =>
      if dispatch_action.action_id ∈ seen_action_ids then
        .error ("duplicate action_id `" ++ dispatch_action.action_id ++
          "` in supervisor contract")
      else
        let dedupe_token := contractDedupeToken dispatch_action
        let scoped_dedupe_key := dispatch_action.workspace_id ++ ":" ++ dedupe_token
        if scoped_dedupe_key ∈ seen_dedupe_keys then
          .error ("duplicate dedupe key `" ++ dedupe_token ++ "` for workspace `" ++
            dispatch_action.workspace_id ++ "`")
        else
          match validateContractActions rest
              (dispatch_action.action_id :: seen_action_ids)
              (scoped_dedupe_key :: seen_dedupe_keys) with
          | .error e => .error e
          | .ok actions => .ok (dispatch_action :: actions)

/-- `validate_supervisor_action_contract`. -/
def validate_supervisor_action_contract (contract : SupervisorActionContract) :
    Except String ValidatedSupervisorActionContract :=
  let version := rustTrim contract.version
  if version ≠ SUPERVISOR_ACTION_CONTRACT_VERSION then
    .error ("unsupported supervisor contract version `" ++ version ++ "` (expected `" ++
      SUPERVISOR_ACTION_CONTRACT_VERSION ++ "`)")
  else if contract.actions.isEmpty then
    .error "actions must contain at least one item"
  else
    match validateContractActions contract.actions [] [] with
    | .error e => .error e
    | .ok dispatch_actions =>
      .ok { version := SUPERVISOR_ACTION_CONTRACT_VERSION,
            dispatch_actions := dispatch_actions }

/-- The keys of a JSON object, in order. -/
def JsonObj.keys : JsonObj → List String
  | .nil => []
  | .cons k _ rest => k :: JsonObj.keys rest

/-- Deserializing a required `String` struct field, as serde does. -/
def parseStrField (fields : JsonObj) (key : String) : Except String String :=
  match fields.find? key with
  | some (.str s) => .ok s
  | some _ =>
    .error ("invalid supervisor action contract: invalid type for field `" ++ key ++ "`")
  | none => .error ("invalid supervisor action contract: missing field `" ++ key ++ "`")

/-- Deserializing a `#[serde(default)] Option<String>` struct field. -/
def parseOptStrField (fields : JsonObj) (key : String) : Except String (Option String) :=
  match fields.find? key with
  | none => .ok none
  | some .null => .ok none
  | some (.str s) => .ok (some s)
  | some _ =>
    .error ("invalid supervisor action contract: invalid type for field `" ++ key ++ "`")

/-- serde deserialization of `SupervisorPlannerAction`: internally tagged by
`type`, the single variant `dispatch_turn` carrying a
`#[serde(deny_unknown_fields)] SupervisorDispatchTurnAction`. -/
def parsePlannerAction (value : JsonVal) : Except String SupervisorPlannerAction :=
  match value with
  | .obj fields =>
    match fields.find? "type" with
    | some (.str tag) =>
      if tag = "dispatch_turn" then
        match ( JsonObj.keys fields).find? (fun k =>
            !(k == "type" || k == "action_id" || k == "workspace_id" || k == "prompt" ||
              k == "thread_id" || k == "dedupe_key")) with
        | some k =>
          .error ("invalid supervisor action contract: unknown field `" ++ k ++ "`")
        | none =>
          match parseStrField fields "action_id" with
          | .error e => .error e
          | .ok action_id =>
            match parseStrField fields "workspace_id" with
            | .error e => .error e
            | .ok workspace_id =>
              match parseStrField fields "prompt" with
              | .error e => .error e
              | .ok prompt =>
                match parseOptStrField fields "thread_id" with
                | .error e => .error e
                | .ok thread_id =>
                  match parseOptStrField fields "dedupe_key" with
                  | .error e => .error e
                  | .ok dedupe_key =>
                    .ok (.dispatchTurn
                      { action_id := action_id,
                        workspace_id := workspace_id,
                        prompt := prompt,
                        thread_id := thread_id,
                        dedupe_key := dedupe_key })
      else .error ("invalid supervisor action contract: unknown variant `" ++ tag ++ "`")
    | some _ => .error "invalid supervisor action contract: invalid type for field `type`"
    | none => .error "invalid supervisor action contract: missing field `type`"
  | _ => .error "invalid supervisor action contract: expected a JSON object"

/-- serde deserialization of the `actions` array. -/
def parseContractActions : JsonArr → Except String (List SupervisorPlannerAction)
  | .nil => .ok []
  | .cons v rest =>
    match parsePlannerAction v with
    | .error e => .error e
    | .ok a =>
      match parseContractActions rest with
      | .error e => .error e
      | .ok items => .ok (a :: items)

/-- `parse_supervisor_action_contract_value`: serde deserialization of the
`#[serde(deny_unknown_fields)] SupervisorActionContract` followed by
`validate_supervisor_action_contract`. -/
def parse_supervisor_action_contract_value (value : JsonVal) :
    Except String ValidatedSupervisorActionContract :=
  match value with
  | .obj fields =>
    match ( JsonObj.keys fields).find? (fun k => !(k == "version" || k == "actions")) with
    | some k => .error ("invalid supervisor action contract: unknown field `" ++ k ++ "`")
    | none =>
      match fields.find? "version" with
      | some (.str version) =>
        match fields.find? "actions" with
        | some (.arr items) =>
          match parseContractActions items with
          | .error e => .error e
          | .ok actions =>
            validate_supervisor_action_contract { version := version, actions := actions }
        | some _ =>
          .error "invalid supervisor action contract: invalid type for field `actions`"
        | none => .error "invalid supervisor action contract: missing field `actions`"
      | some _ =>
        .error "invalid supervisor action contract: invalid type for field `version`"
      | none => .error "invalid supervisor action contract: missing field `version`"
  | _ => .error "invalid supervisor action contract: expected a JSON object"

/-- The inner turn action of a planner action. -/
def SupervisorPlannerAction.turn : SupervisorPlannerAction → SupervisorDispatchTurnAction
  | .dispatchTurn a => a

/-- All three required fields survive trimming. -/
def actionFieldsPresent (action : SupervisorPlannerAction) : Bool :=
  !(rustTrim action.turn.action_id).isEmpty &&
  !(rustTrim action.turn.workspace_id).isEmpty &&
  !(rustTrim action.turn.prompt).isEmpty

/-- The trimmed `action_id` the validator dedupes on. -/
def actionTrimmedId (action : SupervisorPlannerAction) : String :=
  rustTrim action.turn.action_id

/-- The fully-trimmed dispatch action an accepted contract emits for `action`. -/
def actionNormalized (action : SupervisorPlannerAction) : SupervisorDispatchAction :=
  { action_id := rustTrim action.turn.action_id,
    workspace_id := rustTrim action.turn.workspace_id,
    prompt := rustTrim action.turn.prompt,
    thread_id := normalizeOptional action.turn.thread_id,
    dedupe_key := normalizeOptional action.turn.dedupe_key }

/-- The scoped dedupe string `"{workspace_id}:{dedupe_token}"` the validator
records for `action`. -/
def actionScopedKey (action : SupervisorPlannerAction) : String :=
  (actionNormalized action).workspace_id ++ ":" ++
    contractDedupeToken (actionNormalized action)

theorem isEmpty_eq_true_iff (l : List SupervisorPlannerAction) :
    l.isEmpty = true ↔ l = [] := by
  cases l <;> simp [List.isEmpty]

theorem norm_dispatch_turn_ok (a : SupervisorDispatchTurnAction)
    (h : actionFieldsPresent (SupervisorPlannerAction.dispatchTurn a) = true) :
    normalize_dispatch_turn_action a =
      .ok (actionNormalized (.dispatchTurn a)) := by
  simp only [actionFieldsPresent, SupervisorPlannerAction.turn, Bool.and_eq_true,
    Bool.not_eq_true'] at h
  obtain ⟨⟨h1, h2⟩, h3⟩ := h
  simp [normalize_dispatch_turn_action, normalize_required, h1, h2, h3,
    actionNormalized, SupervisorPlannerAction.turn]

theorem normalize_required_ok (f v r : String)
    (h : normalize_required f v = .ok r) :
    r = rustTrim v ∧ (rustTrim v).isEmpty = false := by
  simp only [normalize_required] at h
  by_cases hc : (rustTrim v).isEmpty = true
  · rw [if_pos hc] at h
    exact Except.noConfusion h
  · rw [if_neg hc] at h
    injection h with h'
    exact ⟨h'.symm, by simpa using hc⟩

theorem norm_dispatch_turn_of_ok (a : SupervisorDispatchTurnAction)
    (d : SupervisorDispatchAction)
    (h : normalize_dispatch_turn_action a = .ok d) :
    actionFieldsPresent (SupervisorPlannerAction.dispatchTurn a) = true ∧
      d = actionNormalized (.dispatchTurn a) := by
  cases hn1 : normalize_required "action_id" a.action_id with
  | error e =>
    simp only [normalize_dispatch_turn_action, hn1] at h
    exact Except.noConfusion h
  | ok r1 =>
    cases hn2 : normalize_required "workspace_id" a.workspace_id with
    | error e =>
      simp only [normalize_dispatch_turn_action, hn1, hn2] at h
      exact Except.noConfusion h
    | ok r2 =>
      cases hn3 : normalize_required "prompt" a.prompt with
      | error e =>
        simp only [normalize_dispatch_turn_action, hn1, hn2, hn3] at h
        exact Except.noConfusion h
      | ok r3 =>
        simp only [normalize_dispatch_turn_action, hn1, hn2, hn3] at h
        obtain ⟨hr1, e1⟩ := normalize_required_ok _ _ _ hn1
        obtain ⟨hr2, e2⟩ := normalize_required_ok _ _ _ hn2
        obtain ⟨hr3, e3⟩ := normalize_required_ok _ _ _ hn3
        subst hr1
        subst hr2
        subst hr3
        injection h with h'
        refine ⟨?_, h'.symm⟩
        simp only [actionFieldsPresent, SupervisorPlannerAction.turn,
          Bool.and_eq_true, Bool.not_eq_true']
        exact ⟨⟨e1, e2⟩, e3⟩

theorem validateContractActions_ok_of (actions : List SupervisorPlannerAction) :
    ∀ (seenIds seenKeys : List String),
    (∀ a ∈ actions, actionFieldsPresent a = true) →
    (actions.map actionTrimmedId).Nodup →
    (∀ a ∈ actions, actionTrimmedId a ∉ seenIds) →
    (actions.map actionScopedKey).Nodup →
    (∀ a ∈ actions, actionScopedKey a ∉ seenKeys) →
    validateContractActions actions seenIds seenKeys =
      .ok (actions.map actionNormalized) := by
  induction actions with
  | nil => intro seenIds seenKeys _ _ _ _ _; rfl
  | cons a rest ih =>
    intro seenIds seenKeys hpres hid hidseen hkey hkeyseen
    obtain ⟨a0⟩ := a
    have hnorm : normalize_dispatch_turn_action a0 =
        .ok (actionNormalized (.dispatchTurn a0)) :=
      norm_dispatch_turn_ok a0 (hpres _ (List.mem_cons_self _ _))
    rw [List.map_cons, List.nodup_cons] at hid hkey
    simp only [validateContractActions, hnorm]
    have hnid : (actionNormalized
        (SupervisorPlannerAction.dispatchTurn a0)).action_id ∉ seenIds :=
      hidseen _ (List.mem_cons_self _ _)
    have hnkey : ((actionNormalized
          (SupervisorPlannerAction.dispatchTurn a0)).workspace_id ++ ":" ++
        contractDedupeToken (actionNormalized
          (SupervisorPlannerAction.dispatchTurn a0))) ∉ seenKeys :=
      hkeyseen _ (List.mem_cons_self _ _)
    rw [if_neg hnid, if_neg hnkey]
    have hidseen' : ∀ b ∈ rest, actionTrimmedId b ∉
        ((actionNormalized
          (SupervisorPlannerAction.dispatchTurn a0)).action_id :: seenIds) := by
      intro b hb hmem
      rcases List.mem_cons.mp hmem with heq | hmem'
      · refine hid.1 ?_
        have hmm : actionTrimmedId b ∈ rest.map actionTrimmedId :=
          List.mem_map_of_mem actionTrimmedId hb
        rw [heq] at hmm
        exact hmm
      · exact hidseen b (List.mem_cons_of_mem _ hb) hmem'
    have hkeyseen' : ∀ b ∈ rest, actionScopedKey b ∉
        (((actionNormalized
            (SupervisorPlannerAction.dispatchTurn a0)).workspace_id ++ ":" ++
          contractDedupeToken (actionNormalized
            (SupervisorPlannerAction.dispatchTurn a0))) :: seenKeys) := by
      intro b hb hmem
      rcases List.mem_cons.mp hmem with heq | hmem'
      · refine hkey.1 ?_
        have hmm : actionScopedKey b ∈ rest.map actionScopedKey :=
          List.mem_map_of_mem actionScopedKey hb
        rw [heq] at hmm
        exact hmm
      · exact hkeyseen b (List.mem_cons_of_mem _ hb) hmem'
    have hpres' : ∀ b ∈ rest, actionFieldsPresent b = true :=
      fun b hb => hpres b (List.mem_cons_of_mem _ hb)
    rw [ih _ _ hpres' hid.2 hidseen' hkey.2 hkeyseen']
    rfl

theorem validateContractActions_conds_of_ok (actions : List SupervisorPlannerAction) :
    ∀ (seenIds seenKeys : List String) (v : List SupervisorDispatchAction),
    validateContractActions actions seenIds seenKeys = .ok v →
    (∀ a ∈ actions, actionFieldsPresent a = true) ∧
    (actions.map actionTrimmedId).Nodup ∧
    (∀ a ∈ actions, actionTrimmedId a ∉ seenIds) ∧
    (actions.map actionScopedKey).Nodup ∧
    (∀ a ∈ actions, actionScopedKey a ∉ seenKeys) := by
  induction actions with
  | nil =>
    intro seenIds seenKeys v _
    refine ⟨?_, ?_, ?_, ?_, ?_⟩ <;> simp
  | cons a rest ih =>
    intro seenIds seenKeys v h
    obtain ⟨a0⟩ := a
    cases hn : normalize_dispatch_turn_action a0 with
    | error e =>
      simp only [validateContractActions, hn] at h
      exact Except.noConfusion h
    | ok d =>
      simp only [validateContractActions, hn] at h
      obtain ⟨hpres0, hd⟩ := norm_dispatch_turn_of_ok a0 d hn
      subst hd
      by_cases hmem : (actionNormalized
          (SupervisorPlannerAction.dispatchTurn a0)).action_id ∈ seenIds
      · rw [if_pos hmem] at h
        exact Except.noConfusion h
      · rw [if_neg hmem] at h
        by_cases hkmem : ((actionNormalized
              (SupervisorPlannerAction.dispatchTurn a0)).workspace_id ++ ":" ++
            contractDedupeToken (actionNormalized
              (SupervisorPlannerAction.dispatchTurn a0))) ∈ seenKeys
        · rw [if_pos hkmem] at h
          exact Except.noConfusion h
        · rw [if_neg hkmem] at h
          cases hr : validateContractActions rest
              ((actionNormalized
                (SupervisorPlannerAction.dispatchTurn a0)).action_id :: seenIds)
              (((actionNormalized
                  (SupervisorPlannerAction.dispatchTurn a0)).workspace_id ++ ":" ++
                contractDedupeToken (actionNormalized
                  (SupervisorPlannerAction.dispatchTurn a0))) :: seenKeys) with
          | error e =>
            rw [hr] at h
            exact Except.noConfusion h
          | ok tail =>
            obtain ⟨hpres', hidN, hidS, hkeyN, hkeyS⟩ := ih _ _ _ hr
            refine ⟨?_, ?_, ?_, ?_, ?_⟩
            · intro b hb
              rcases List.mem_cons.mp hb with rfl | hb'
              · exact hpres0
              · exact hpres' b hb'
            · rw [List.map_cons, List.nodup_cons]
              refine ⟨?_, hidN⟩
              intro hmem2
              rcases List.mem_map.mp hmem2 with ⟨b, hb, hbe⟩
              exact hidS b hb (by rw [hbe]; exact List.mem_cons_self _ _)
            · intro b hb
              rcases List.mem_cons.mp hb with rfl | hb'
              · exact hmem
              · exact fun hmem2 =>
                  hidS b hb' (List.mem_cons_of_mem _ hmem2)
            · rw [List.map_cons, List.nodup_cons]
              refine ⟨?_, hkeyN⟩
              intro hmem2
              rcases List.mem_map.mp hmem2 with ⟨b, hb, hbe⟩
              exact hkeyS b hb (by rw [hbe]; exact List.mem_cons_self _ _)
            · intro b hb
              rcases List.mem_cons.mp hb with rfl | hb'
              · exact hkmem
              · exact fun hmem2 =>
                  hkeyS b hb' (List.mem_cons_of_mem _ hmem2)

/-- C5: contract validation rejects exactly the contracts whose trimmed version
differs from `supervisor.dispatch.v1`, whose actions list is empty, that contain
a blank required field, a duplicate trimmed `action_id`, or a duplicate scoped
dedupe string `"{workspace_id}:{dedupe_token}"`; any other contract is accepted
with every string trimmed (and that is the only possible success value).  At the
serde layer, an unknown top-level or per-action field always makes parsing fail.
Note the duplicate-dedupe condition compares colon-packed strings, not
`(workspace_id, dedupe_token)` pairs. -/
theorem contract_validation_conditions (contract : SupervisorActionContract) :
    (validate_supervisor_action_contract contract =
        .ok { version := SUPERVISOR_ACTION_CONTRACT_VERSION,
              dispatch_actions := contract.actions.map actionNormalized } ↔
      (rustTrim contract.version = SUPERVISOR_ACTION_CONTRACT_VERSION ∧
        contract.actions ≠ [] ∧
        (∀ a ∈ contract.actions, actionFieldsPresent a = true) ∧
        (contract.actions.map actionTrimmedId).Nodup ∧
        (contract.actions.map actionScopedKey).Nodup)) ∧
    (∀ v, validate_supervisor_action_contract contract = .ok v →
      v = { version := SUPERVISOR_ACTION_CONTRACT_VERSION,
            dispatch_actions := contract.actions.map actionNormalized }) ∧
    (∀ fields : JsonObj, ∀ k ∈ JsonObj.keys fields, k ≠ "version" → k ≠ "actions" →
      ∀ v, parse_supervisor_action_contract_value (.obj fields) ≠ .ok v) ∧
    (∀ fields : JsonObj, ∀ k ∈ JsonObj.keys fields, k ≠ "type" → k ≠ "action_id" →
      k ≠ "workspace_id" → k ≠ "prompt" → k ≠ "thread_id" → k ≠ "dedupe_key" →
      ∀ v, parsePlannerAction (.obj fields) ≠ .ok v) := by
  refine ⟨⟨?_, ?_⟩, ?_, ?_, ?_⟩
  · intro h
    simp only [validate_supervisor_action_contract] at h
    by_cases hv : rustTrim contract.version = SUPERVISOR_ACTION_CONTRACT_VERSION
    · rw [if_neg (not_not_intro hv)] at h
      by_cases he : contract.actions.isEmpty = true
      · rw [if_pos he] at h
        exact Except.noConfusion h
      · rw [if_neg he] at h
        cases hr : validateContractActions contract.actions [] [] with
        | error e =>
          rw [hr] at h
          exact Except.noConfusion h
        | ok ds =>
          obtain ⟨hpres, hidN, _, hkeyN, _⟩ :=
            validateContractActions_conds_of_ok contract.actions [] [] ds hr
          exact ⟨hv, fun hnil => he ((isEmpty_eq_true_iff _).mpr hnil),
            hpres, hidN, hkeyN⟩
    · rw [if_pos hv] at h
      exact Except.noConfusion h
  · rintro ⟨hv, hne, hpres, hid, hkey⟩
    have hloop := validateContractActions_ok_of contract.actions [] [] hpres hid
      (by simp) hkey (by simp)
    simp only [validate_supervisor_action_contract]
    rw [if_neg (not_not_intro hv),
      if_neg (fun he => hne ((isEmpty_eq_true_iff _).mp he)), hloop]
  · intro v h
    simp only [validate_supervisor_action_contract] at h
    by_cases hv : rustTrim contract.version = SUPERVISOR_ACTION_CONTRACT_VERSION
    · rw [if_neg (not_not_intro hv)] at h
      by_cases he : contract.actions.isEmpty = true
      · rw [if_pos he] at h
        exact Except.noConfusion h
      · rw [if_neg he] at h
        cases hr : validateContractActions contract.actions [] [] with
        | error e =>
          rw [hr] at h
          exact Except.noConfusion h
        | ok ds =>
          obtain ⟨hpres, hidN, hidS, hkeyN, hkeyS⟩ :=
            validateContractActions_conds_of_ok contract.actions [] [] ds hr
          have hok := validateContractActions_ok_of contract.actions [] []
            hpres hidN hidS hkeyN hkeyS
          rw [hr] at hok h
          injection hok with hds
          have h' : (Except.ok
                { version := SUPERVISOR_ACTION_CONTRACT_VERSION,
                  dispatch_actions := ds } :
              Except String ValidatedSupervisorActionContract) = .ok v := h
          injection h' with h''
          rw [← h'', hds]
    · rw [if_pos hv] at h
      exact Except.noConfusion h
  · intro fields k hk hk1 hk2 v h
    have hfound : ( JsonObj.keys fields).find?
        (fun k => !(k == "version" || k == "actions")) ≠ none := by
      intro hnone
      have hall := List.find?_eq_none.mp hnone k hk
      simp [hk1, hk2] at hall
    cases hf : ( JsonObj.keys fields).find?
        (fun k => !(k == "version" || k == "actions")) with
    | none => exact hfound hf
    | some k' =>
      simp only [parse_supervisor_action_contract_value, hf] at h
      exact Except.noConfusion h
  · intro fields k hk h1 h2 h3 h4 h5 h6 v h
    cases ht : fields.find? "type" with
    | none =>
      simp only [parsePlannerAction, ht] at h
      exact Except.noConfusion h
    | some tv =>
      cases tv with
      | str tag =>
        simp only [parsePlannerAction, ht] at h
        by_cases htag : tag = "dispatch_turn"
        · rw [if_pos htag] at h
          have hfound : ( JsonObj.keys fields).find? (fun k =>
              !(k == "type" || k == "action_id" || k == "workspace_id" ||
                k == "prompt" || k == "thread_id" || k == "dedupe_key")) ≠ none := by
            intro hnone
            have hall := List.find?_eq_none.mp hnone k hk
            simp [h1, h2, h3, h4, h5, h6] at hall
          cases hf : ( JsonObj.keys fields).find? (fun k =>
              !(k == "type" || k == "action_id" || k == "workspace_id" ||
                k == "prompt" || k == "thread_id" || k == "dedupe_key")) with
          | none => exact hfound hf
          | some k' =>
            rw [hf] at h
            exact Except.noConfusion h
        · rw [if_neg htag] at h
          exact Except.noConfusion h
      | null =>
        simp only [parsePlannerAction, ht] at h
        exact Except.noConfusion h
      | bool b =>
        simp only [parsePlannerAction, ht] at h
        exact Except.noConfusion h
      | num n =>
        simp only [parsePlannerAction, ht] at h
        exact Except.noConfusion h
      | arr items =>
        simp only [parsePlannerAction, ht] at h
        exact Except.noConfusion h
      | obj inner =>
        simp only [parsePlannerAction, ht] at h
        exact Except.noConfusion h

abbrev c5GoodContract : SupervisorActionContract :=
  { version := "supervisor.dispatch.v1",
    actions := [
      SupervisorPlannerAction.dispatchTurn
        { action_id := " action-1 ",
          workspace_id := " ws-1 ",
          prompt := " fix failing tests ",
          thread_id := some " thread-1 ",
          dedupe_key := some " dispatch-1 " },
      SupervisorPlannerAction.dispatchTurn
        { action_id := "action-2",
          workspace_id := "ws-2",
          prompt := "ship release" }] }

/-- Witness for C5 at concrete inputs: the repo's two-action contract with
padded strings is accepted with every string trimmed, and a contract object
with an unknown top-level field never parses. -/
theorem contract_validation_conditions_witness :
    validate_supervisor_action_contract c5GoodContract =
      .ok { version := SUPERVISOR_ACTION_CONTRACT_VERSION,
            dispatch_actions := c5GoodContract.actions.map actionNormalized } ∧
    (∀ v, parse_supervisor_action_contract_value
        (jobj [("version", .str "supervisor.dispatch.v1"),
               ("actions", jarr []), ("unexpected", .bool true)]) ≠ .ok v) :=
  ⟨(contract_validation_conditions c5GoodContract).1.mpr
      ⟨by decide, by decide, by decide, by decide, by decide⟩,
    fun v => (contract_validation_conditions c5GoodContract).2.2.1
      (JsonObj.ofList [("version", .str "supervisor.dispatch.v1"),
        ("actions", jarr []), ("unexpected", .bool true)])
      "unexpected" (by decide) (by decide) (by decide) v⟩

abbrev c5ColonContract : SupervisorActionContract :=
  { version := "supervisor.dispatch.v1",
    actions := [
      SupervisorPlannerAction.dispatchTurn
        { action_id := "action-1",
          workspace_id := "a:b",
          prompt := "first",
          dedupe_key := some "c" },
      SupervisorPlannerAction.dispatchTurn
        { action_id := "action-2",
          workspace_id := "a",
          prompt := "second",
          dedupe_key := some "b:c" }] }

/-- Counterexample to C5 as stated: the two actions have distinct
`(workspace_id, dedupe_token)` pairs — `("a:b", "c")` and `("a", "b:c")` — and
avoid every other rejection condition of the claim, yet the validator rejects
the contract, because both pairs pack into the same scoped string `"a:b:c"`. -/
theorem contract_validation_counterexample :
    rustTrim c5ColonContract.version = SUPERVISOR_ACTION_CONTRACT_VERSION ∧
    c5ColonContract.actions ≠ [] ∧
    (∀ a ∈ c5ColonContract.actions, actionFieldsPresent a = true) ∧
    (c5ColonContract.actions.map actionTrimmedId).Nodup ∧
    (c5ColonContract.actions.map (fun a => ((actionNormalized a).workspace_id,
      contractDedupeToken (actionNormalized a)))).Nodup ∧
    validate_supervisor_action_contract c5ColonContract =
      .error "duplicate dedupe key `b:c` for workspace `a`" := by
  refine ⟨by decide, by decide, by decide, by decide, by decide, by decide⟩

/-!
### Workspace routing (`supervisor_core/routing.rs`)
-/

/-- `SupervisorRouteWorkspaceMetadata`. -/
structure SupervisorRouteWorkspaceMetadata where
  workspace_id : String
  name : String
  path : String
  branch : Option String := none
  connected : Bool
  available : Bool
  health : SupervisorHealth
  capabilities : List String := []
  deriving DecidableEq

/-- `SupervisorRouteKind`. -/
inductive SupervisorRouteKind where
  | workspaceDelegate
  | localTool
  | clarification
  deriving DecidableEq

/-- `SupervisorLocalTool`. -/
inductive SupervisorLocalTool where
  | status
  | feed
  | help
  deriving DecidableEq

/-- `SupervisorRouteDecision`. -/
structure SupervisorRouteDecision where
  kind : SupervisorRouteKind
  reason : String
  workspace_id : Option String := none
  local_tool : Option SupervisorLocalTool := none
  model : Option String := none
  used_dedicated_workspace : Bool := false
  fallback_message : Option String := none
  clarification : Option String := none
  options : List String := []
  candidates : List SupervisorRouteWorkspaceMetadata := []
  deriving DecidableEq

/-- `ScoredCandidate`. -/
structure ScoredCandidate where
  workspace : SupervisorRouteWorkspaceMetadata
  score : Int
  explicit_match : Bool
  deriving DecidableEq

/-- Does `needle` start `haystack`? (`str::starts_with` on char lists.) -/
def startsWithL : List Char → List Char → Bool
  | [], _ => true
  | _ :: _, [] => false
  | a :: xs, b :: ys => a == b && startsWithL xs ys

/-- `str::contains`: `needle` occurs as a contiguous substring of `haystack`. -/
def containsL (needle : List Char) : List Char → Bool
  | [] => needle.isEmpty
  | c :: rest => startsWithL needle (c :: rest) || containsL needle rest

/-- `prompt_lower.contains(sub)` on strings. -/
def rustContains (haystack sub : String) : Bool :=
  containsL sub.data haystack.data

/-- `str::split_whitespace`, accumulating maximal non-whitespace runs. -/
def splitWsAux : List Char → List Char → List (List Char)
  | [], acc => if acc.isEmpty then [] else [acc.reverse]
  | c :: rest, acc =>
    if c.isWhitespace then
      if acc.isEmpty then splitWsAux rest []
      else acc.reverse :: splitWsAux rest []
    else splitWsAux rest (c :: acc)

/-- `str::split_whitespace` on strings. -/
def splitWhitespace (s : String) : List String :=
  (splitWsAux s.data []).map (fun l => String.mk l)

/-- Split a char list at a separator (keeping empty components). -/
def splitCharAux (sep : Char) : List Char → List Char → List (List Char)
  | [], acc => [acc.reverse]
  | c :: rest, acc =>
    if c = sep then acc.reverse :: splitCharAux sep rest []
    else splitCharAux sep rest (c :: acc)

/-- `Path::new(path).file_name()`: the last non-empty `/`-separated component,
with `.` components normalized away and a trailing `..` yielding `None`. -/
def pathFileName (path : String) : Option String :=
  match ((splitCharAux '/' path.data []).filter
      (fun l => !l.isEmpty && l ≠ ['.'])).getLast? with
  | none => none
  | some comp => if comp = ['.', '.'] then none else some (String.mk comp)

/-- The UTF-8 byte length of a string (Rust `str::len`). -/
def rustByteLen (s : String) : Nat :=
  (s.data.map Char.utf8Size).foldl (· + ·) 0

/-- `prompt_mentions_workspace`. -/
def prompt_mentions_workspace (prompt_lower : String)
    (workspace : SupervisorRouteWorkspaceMetadata) : Bool :=
  if rustContains prompt_lower (rustLower workspace.workspace_id) then true
  else if ((splitWhitespace (rustLower (rustTrim workspace.name))).filter
      (fun token => 3 ≤ rustByteLen token)).any
        (fun token => rustContains prompt_lower token) then true
  else if (match (pathFileName workspace.path).map rustLower with
    | some value => !value.isEmpty && rustContains prompt_lower value
    | none => false) then true
  else
    match ((workspace.branch.map rustTrim).filter
        (fun v => !v.isEmpty)).map rustLower with
    | some value => rustContains prompt_lower value
    | none => false

/-- The scoring step of `select_standard_workspace_route` (lines 167-189). -/
def scoreCandidate (prompt_lower : String)
    (workspace : SupervisorRouteWorkspaceMetadata) : ScoredCandidate :=
  let explicit_match := prompt_mentions_workspace prompt_lower workspace
  let score : Int :=
    (match workspace.health with
      | .healthy => 30
      | .stale => 18
      | .disconnected => -100) +
    (if workspace.available then 15 else -100) +
    (if workspace.connected then 10 else -100) +
    min (workspace.capabilities.length : Int) 6 +
    (if explicit_match then 70 else 0)
  { workspace := workspace, score := score, explicit_match := explicit_match }

/-- Lexicographic `≤` on char lists by scalar value (UTF-8 byte order and
scalar order agree, so this is Rust's `String::cmp`). -/
def charListLE : List Char → List Char → Bool
  | [], _ => true
  | _ :: _, [] => false
  | a :: xs, b :: ys =>
    if a.toNat < b.toNat then true
    else if b.toNat < a.toNat then false
    else charListLE xs ys

/-- Rust `String` ordering (byte-lexicographic). -/
def rustStringLE (a b : String) : Bool :=
  charListLE a.data b.data

/-- The comparator of `scored.sort_by` (lines 191-197) as a boolean `≤`:
`left` may precede `right` when `left` scores higher, or scores tie and
`left`'s workspace id is not greater. -/
def routeLE (left right : ScoredCandidate) : Bool :=
  decide (right.score < left.score) ||
    (decide (right.score = left.score) &&
      rustStringLE left.workspace.workspace_id right.workspace.workspace_id)

/-- Stable insertion into a sorted list: the new element goes after every
element that may precede it. -/
def insertSorted {α : Type} (le : α → α → Bool) (x : α) : List α → List α
  | [] => [x]
  | y :: rest => if le y x then y :: insertSorted le x rest else x :: y :: rest

/-- `Vec::sort_by` (a stable sort) modelled as a stable insertion sort. -/
def stableSort {α : Type} (le : α → α → Bool) (l : List α) : List α :=
  l.foldl (fun acc x => insertSorted le x acc) []

/-- The scored-and-sorted candidate list of `select_standard_workspace_route`. -/
def routeScored (prompt_lower : String)
    (available : List SupervisorRouteWorkspaceMetadata) : List ScoredCandidate :=
  stableSort routeLE (available.map (scoreCandidate prompt_lower))

/-- `workspace_decision`. -/
def workspace_decision (workspace_id : String) (reason : String)
    (model : Option String) (used_dedicated_workspace : Bool)
    (fallback_message : Option String)
    (candidates : List SupervisorRouteWorkspaceMetadata) :
    SupervisorRouteDecision :=
  { kind := .workspaceDelegate,
    reason := reason,
    workspace_id := some workspace_id,
    local_tool := none,
    model := model,
    used_dedicated_workspace := used_dedicated_workspace,
    fallback_message := fallback_message,
    clarification := none,
    options := [],
    candidates := candidates }

/-- `clarification_decision`. -/
def clarification_decision (reason : String) (clarification : String)
    (options : List String)
    (candidates : List SupervisorRouteWorkspaceMetadata)
    (fallback_message : Option String) : SupervisorRouteDecision :=
  { kind := .clarification,
    reason := reason,
    workspace_id := none,
    local_tool := none,
    model := none,
    used_dedicated_workspace := false,
    fallback_message := fallback_message,
    clarification := some clarification,
    options := options,
    candidates := candidates }

/-- `select_standard_workspace_route`. -/
def select_standard_workspace_route (prompt_lower : String)
    (available : List SupervisorRouteWorkspaceMetadata)
    (candidates : List SupervisorRouteWorkspaceMetadata)
    (fallback_message : Option String) : SupervisorRouteDecision :=
  match routeScored prompt_lower available with
  | [] =>
    clarification_decision "No workspace candidates are available for routing."
      "Connect a workspace or use `/dispatch --ws ...`." [] candidates
      fallback_message
  | best :: rest =>
    let is_ambiguous := match rest with
      | [] => false
      | next :: _ =>
        next.score == best.score && !best.explicit_match && !next.explicit_match
    if is_ambiguous || decide (best.score < 25) then
      clarification_decision "Workspace route is ambiguous."
        "Specify target workspace in chat (for example: `workspace ws-1 ...`) or use `/dispatch --ws ...`."
        (((best :: rest).take 4).map (fun entry => entry.workspace.workspace_id))
        candidates fallback_message
    else
      workspace_decision best.workspace.workspace_id
        (if best.explicit_match then
          "Prompt explicitly matched workspace metadata; selected `" ++
            best.workspace.workspace_id ++ "`."
        else
          "Selected `" ++ best.workspace.workspace_id ++
            "` as the highest-ranked available workspace (score " ++
            toString best.score ++ ").")
        none false fallback_message candidates

theorem charListLE_total : ∀ (xs ys : List Char),
    charListLE xs ys = true ∨ charListLE ys xs = true := by
  intro xs
  induction xs with
  | nil => intro ys; exact Or.inl rfl
  | cons a xs ih =>
    intro ys
    cases ys with
    | nil => exact Or.inr rfl
    | cons b ys =>
      simp only [charListLE]
      by_cases hab : a.toNat < b.toNat
      · exact Or.inl (by rw [if_pos hab])
      · by_cases hba : b.toNat < a.toNat
        · exact Or.inr (by rw [if_pos hba])
        · rw [if_neg hab, if_neg hba, if_neg hba, if_neg hab]
          exact ih ys

theorem charListLE_trans : ∀ (xs ys zs : List Char),
    charListLE xs ys = true → charListLE ys zs = true →
    charListLE xs zs = true := by
  intro xs
  induction xs with
  | nil => intro ys zs h1 h2; rfl
  | cons a xs ih =>
    intro ys zs h1 h2
    cases ys with
    | nil => simp [charListLE] at h1
    | cons b ys =>
      cases zs with
      | nil => simp [charListLE] at h2
      | cons c zs =>
        simp only [charListLE] at h1 h2 ⊢
        by_cases hab : a.toNat < b.toNat
        · by_cases hbc : b.toNat < c.toNat
          · rw [if_pos (by omega : a.toNat < c.toNat)]
          · rw [if_neg hbc] at h2
            by_cases hcb : c.toNat < b.toNat
            · rw [if_pos hcb] at h2
              exact absurd h2 (by simp)
            · rw [if_pos (by omega : a.toNat < c.toNat)]
        · rw [if_neg hab] at h1
          by_cases hba : b.toNat < a.toNat
          · rw [if_pos hba] at h1
            exact absurd h1 (by simp)
          · rw [if_neg hba] at h1
            by_cases hbc : b.toNat < c.toNat
            · rw [if_pos (by omega : a.toNat < c.toNat)]
            · rw [if_neg hbc] at h2
              by_cases hcb : c.toNat < b.toNat
              · rw [if_pos hcb] at h2
                exact absurd h2 (by simp)
              · rw [if_neg hcb] at h2
                rw [if_neg (by omega : ¬ a.toNat < c.toNat),
                  if_neg (by omega : ¬ c.toNat < a.toNat)]
                exact ih ys zs h1 h2

theorem routeLE_total (a b : ScoredCandidate) :
    routeLE a b = true ∨ routeLE b a = true := by
  simp only [routeLE, Bool.or_eq_true, Bool.and_eq_true, decide_eq_true_eq]
  rcases lt_trichotomy a.score b.score with h | h | h
  · exact Or.inr (Or.inl h)
  · rcases charListLE_total a.workspace.workspace_id.data
        b.workspace.workspace_id.data with hle | hle
    · exact Or.inl (Or.inr ⟨h.symm, hle⟩)
    · exact Or.inr (Or.inr ⟨h, hle⟩)
  · exact Or.inl (Or.inl h)

theorem routeLE_trans (a b c : ScoredCandidate)
    (hab : routeLE a b = true) (hbc : routeLE b c = true) :
    routeLE a c = true := by
  simp only [routeLE, Bool.or_eq_true, Bool.and_eq_true, decide_eq_true_eq] at hab hbc ⊢
  rcases hab with h1 | ⟨h1, h2⟩ <;> rcases hbc with h3 | ⟨h3, h4⟩
  · exact Or.inl (lt_trans h3 h1)
  · exact Or.inl (by omega)
  · exact Or.inl (by omega)
  · exact Or.inr ⟨by omega, charListLE_trans _ _ _ h2 h4⟩

theorem mem_insertSorted {α : Type} (le : α → α → Bool) (x z : α) (l : List α) :
    z ∈ insertSorted le x l ↔ z = x ∨ z ∈ l := by
  induction l with
  | nil => simp [insertSorted]
  | cons y rest ih =>
    simp only [insertSorted]
    by_cases hc : le y x = true
    · rw [if_pos hc]
      simp only [List.mem_cons, ih]
      tauto
    · rw [if_neg hc]
      simp only [List.mem_cons]

theorem pairwise_insertSorted {α : Type} (le : α → α → Bool)
    (htot : ∀ a b, le a b = true ∨ le b a = true)
    (htrans : ∀ a b c, le a b = true → le b c = true → le a c = true)
    (x : α) (l : List α) (hl : l.Pairwise (fun a b => le a b = true)) :
    (insertSorted le x l).Pairwise (fun a b => le a b = true) := by
  induction l with
  | nil => simp [insertSorted]
  | cons y rest ih =>
    rw [List.pairwise_cons] at hl
    obtain ⟨hy, hrest⟩ := hl
    simp only [insertSorted]
    by_cases hc : le y x = true
    · rw [if_pos hc]
      rw [List.pairwise_cons]
      refine ⟨?_, ih hrest⟩
      intro z hz
      rcases (mem_insertSorted le x z rest).mp hz with rfl | hz'
      · exact hc
      · exact hy z hz'
    · rw [if_neg hc]
      have hxy : le x y = true := (htot x y).resolve_right hc
      rw [List.pairwise_cons]
      refine ⟨?_, List.pairwise_cons.mpr ⟨hy, hrest⟩⟩
      intro z hz
      rcases List.mem_cons.mp hz with rfl | hz'
      · exact hxy
      · exact htrans x y z hxy (hy z hz')

theorem pairwise_stableSort {α : Type} (le : α → α → Bool)
    (htot : ∀ a b, le a b = true ∨ le b a = true)
    (htrans : ∀ a b c, le a b = true → le b c = true → le a c = true)
    (l : List α) :
    (stableSort le l).Pairwise (fun a b => le a b = true) := by
  have key : ∀ (m acc : List α), acc.Pairwise (fun a b => le a b = true) →
      (m.foldl (fun acc x => insertSorted le x acc) acc).Pairwise
        (fun a b => le a b = true) := by
    intro m
    induction m with
    | nil => intro acc hacc; exact hacc
    | cons x rest ih =>
      intro acc hacc
      exact ih _ (pairwise_insertSorted le htot htrans x acc hacc)
  exact key l [] (by simp)

theorem insertSorted_perm {α : Type} (le : α → α → Bool) (x : α) (l : List α) :
    (insertSorted le x l).Perm (x :: l) := by
  induction l with
  | nil => exact List.Perm.refl _
  | cons y rest ih =>
    simp only [insertSorted]
    by_cases hc : le y x = true
    · rw [if_pos hc]
      exact (List.Perm.cons y ih).trans (List.Perm.swap x y rest)
    · rw [if_neg hc]

theorem stableSort_perm {α : Type} (le : α → α → Bool) (l : List α) :
    (stableSort le l).Perm l := by
  have key : ∀ (m acc : List α),
      (m.foldl (fun acc x => insertSorted le x acc) acc).Perm (acc ++ m) := by
    intro m
    induction m with
    | nil => intro acc; simp
    | cons x rest ih =>
      intro acc
      refine ((ih (insertSorted le x acc)).trans ?_)
      refine (List.Perm.append_right rest (insertSorted_perm le x acc)).trans ?_
      exact List.perm_middle.symm
  simpa [stableSort] using key l []

abbrev c7WsA : SupervisorRouteWorkspaceMetadata :=
  { workspace_id := "ws-a",
    name := "Workspace ws-a",
    path := "/tmp/ws-a",
    branch := some "main",
    connected := true,
    available := true,
    health := .healthy,
    capabilities := ["thread_start", "turn_start"] }

abbrev c7WsB : SupervisorRouteWorkspaceMetadata :=
  { workspace_id := "ws-b",
    name := "Workspace ws-b",
    path := "/tmp/ws-b",
    branch := some "main",
    connected := true,
    available := true,
    health := .healthy,
    capabilities := ["thread_start", "turn_start"] }

/-- C7: `select_standard_workspace_route` sorts the scored candidates by score
descending then workspace id ascending (the sorted list is pairwise ordered by
the comparator and is a permutation of the scored inputs), and returns the
ambiguity clarification — whose options are the first 4 sorted workspace ids —
exactly when the top two candidates tie on score with neither an explicit
mention, or the top score is below 25; otherwise it delegates to the top
candidate.  In particular two equally healthy, connected, available workspaces
with a prompt mentioning neither yield a Clarification offering both ids. -/
theorem workspace_routing_ambiguity :
    (∀ (p : String) (avail : List SupervisorRouteWorkspaceMetadata),
      (routeScored p avail).Pairwise (fun l r => routeLE l r = true) ∧
      (routeScored p avail).Perm (avail.map (scoreCandidate p))) ∧
    (∀ (p : String) (avail cands : List SupervisorRouteWorkspaceMetadata)
      (fm : Option String) (best : ScoredCandidate) (rest : List ScoredCandidate),
      routeScored p avail = best :: rest →
      ((select_standard_workspace_route p avail cands fm =
          clarification_decision "Workspace route is ambiguous."
            "Specify target workspace in chat (for example: `workspace ws-1 ...`) or use `/dispatch --ws ...`."
            (((best :: rest).take 4).map (fun entry => entry.workspace.workspace_id))
            cands fm) ↔
        ((∃ next rest2, rest = next :: rest2 ∧ next.score = best.score ∧
            best.explicit_match = false ∧ next.explicit_match = false) ∨
          best.score < 25)) ∧
      (¬ ((∃ next rest2, rest = next :: rest2 ∧ next.score = best.score ∧
            best.explicit_match = false ∧ next.explicit_match = false) ∨
          best.score < 25) →
        (select_standard_workspace_route p avail cands fm).kind =
          SupervisorRouteKind.workspaceDelegate ∧
        (select_standard_workspace_route p avail cands fm).workspace_id =
          some best.workspace.workspace_id)) ∧
    ((select_standard_workspace_route "please handle this task"
        [c7WsA, c7WsB] [c7WsA, c7WsB] none).kind =
        SupervisorRouteKind.clarification ∧
      "ws-a" ∈ (select_standard_workspace_route "please handle this task"
        [c7WsA, c7WsB] [c7WsA, c7WsB] none).options ∧
      "ws-b" ∈ (select_standard_workspace_route "please handle this task"
        [c7WsA, c7WsB] [c7WsA, c7WsB] none).options) := by
  refine ⟨?_, ?_, ?_⟩
  · intro p avail
    exact ⟨pairwise_stableSort routeLE routeLE_total routeLE_trans _,
      stableSort_perm routeLE _⟩
  · intro p avail cands fm best rest hs
    cases rest with
    | nil =>
      simp only [select_standard_workspace_route, hs]
      by_cases hlt : best.score < 25
      · rw [if_pos (by simp [hlt])]
        refine ⟨⟨fun _ => Or.inr hlt, fun _ => rfl⟩, ?_⟩
        intro hnot
        exact absurd (Or.inr hlt) hnot
      · rw [if_neg (by simp [hlt])]
        refine ⟨⟨?_, ?_⟩, fun _ => ⟨rfl, rfl⟩⟩
        · intro heq
          have hk := congrArg SupervisorRouteDecision.kind heq
          simp [workspace_decision, clarification_decision] at hk
        · intro hcase
          rcases hcase with ⟨next, rest2, habs, _⟩ | habs
          · exact List.noConfusion habs
          · exact absurd habs hlt
    | cons next rest2 =>
      simp only [select_standard_workspace_route, hs]
      by_cases hc : (next.score == best.score && !best.explicit_match &&
          !next.explicit_match || decide (best.score < 25)) = true
      · rw [if_pos hc]
        refine ⟨⟨fun _ => ?_, fun _ => rfl⟩, ?_⟩
        · rcases Bool.or_eq_true _ _ ▸ hc with hamb | hdec
          · rw [Bool.and_eq_true, Bool.and_eq_true] at hamb
            obtain ⟨⟨hsc, hbe⟩, hne⟩ := hamb
            refine Or.inl ⟨next, rest2, rfl, ?_, ?_, ?_⟩
            · exact (beq_iff_eq.mp hsc)
            · simpa using hbe
            · simpa using hne
          · exact Or.inr (of_decide_eq_true hdec)
        · intro hnot
          rcases Bool.or_eq_true _ _ ▸ hc with hamb | hdec
          · rw [Bool.and_eq_true, Bool.and_eq_true] at hamb
            obtain ⟨⟨hsc, hbe⟩, hne⟩ := hamb
            exact absurd (Or.inl ⟨next, rest2, rfl, beq_iff_eq.mp hsc,
              by simpa using hbe, by simpa using hne⟩) hnot
          · exact absurd (Or.inr (of_decide_eq_true hdec)) hnot
      · rw [if_neg hc]
        refine ⟨⟨?_, ?_⟩, fun _ => ⟨rfl, rfl⟩⟩
        · intro heq
          have hk := congrArg SupervisorRouteDecision.kind heq
          simp [workspace_decision, clarification_decision] at hk
        · intro hcase
          refine absurd ?_ hc
          rcases hcase with ⟨next', rest2', habs, hsc, hbe, hne⟩ | hlt
          · obtain ⟨rfl, rfl⟩ := List.cons.inj habs
            rw [Bool.or_eq_true]
            refine Or.inl ?_
            rw [Bool.and_eq_true, Bool.and_eq_true]
            exact ⟨⟨beq_iff_eq.mpr hsc, by simp [hbe]⟩, by simp [hne]⟩
          · rw [Bool.or_eq_true]
            exact Or.inr (decide_eq_true hlt)
  · refine ⟨by decide, by decide, by decide⟩

/-- Witness for C7 at a concrete input: the two-workspace ambiguity scenario,
fed through the characterization with the sorted scored list computed by
`decide`, yields the ambiguity clarification listing both workspaces. -/
theorem workspace_routing_ambiguity_witness :
    select_standard_workspace_route "please handle this task"
        [c7WsA, c7WsB] [c7WsA, c7WsB] none =
      clarification_decision "Workspace route is ambiguous."
        "Specify target workspace in chat (for example: `workspace ws-1 ...`) or use `/dispatch --ws ...`."
        ["ws-a", "ws-b"] [c7WsA, c7WsB] none :=
  (workspace_routing_ambiguity.2.1 "please handle this task"
      [c7WsA, c7WsB] [c7WsA, c7WsB] none
      (scoreCandidate "please handle this task" c7WsA)
      [scoreCandidate "please handle this task" c7WsB]
      (by decide)).1.mpr
    (Or.inl ⟨scoreCandidate "please handle this task" c7WsB, [], rfl,
      by decide, by decide, by decide⟩)

/-!
### Supervisor chat send (`supervisor_core/service.rs`)
-/

/-- `execute_supervisor_chat_command`, with the two fallible executors — the
parse-then-execute slash path and `execute_freeform_supervisor_chat` — passed
as pure functions. -/
def execute_supervisor_chat_command
    (slashExec freeformExec : String → Except String String)
    (command : String) : String :=
  if command.data.head? = some '/' then
    match slashExec command with
    | .ok response => response
    | .error error => "Error: " ++ error ++ "\nRun `/help` for command usage."
  else
    match freeformExec command with
    | .ok response => response
    | .error error => "Unable to route chat message: " ++ error

/-- `supervisor_chat_send_core`, with the generated uuid suffixes and the
`now_timestamp_ms` reading passed explicitly. -/
def supervisor_chat_send_core (lp : SupervisorLoop)
    (slashExec freeformExec : String → Except String String)
    (command : String) (received_at_ms : Int)
    (user_uuid system_uuid : String) (now_ms : Int) :
    Except String (SupervisorLoop × List SupervisorChatMessage) :=
  let command := rustTrim command
  if command.isEmpty then .error "command is required"
  else
    let user_message : SupervisorChatMessage :=
      { id := "chat-user-" ++ toString received_at_ms ++ "-" ++ user_uuid,
        role := .user,
        text := command,
        created_at_ms := received_at_ms }
    let response_text :=
      execute_supervisor_chat_command slashExec freeformExec command
    let system_message : SupervisorChatMessage :=
      { id := "chat-system-" ++ toString received_at_ms ++ "-" ++ system_uuid,
        role := .system,
        text := response_text,
        created_at_ms := now_ms }
    let lp1 := lp.appendChatMessage user_message
    let lp2 := lp1.appendChatMessage system_message
    .ok (lp2, lp2.chatHistory)

theorem removeFirstBy_eq_self {α : Type} (p : α → Bool) (l : List α)
    (h : ∀ x ∈ l, p x = false) : removeFirstBy p l = l := by
  induction l with
  | nil => rfl
  | cons x rest ih =>
    simp only [removeFirstBy]
    rw [h x (List.mem_cons_self _ _)]
    simp only [Bool.false_eq_true, if_false]
    rw [ih (fun y hy => h y (List.mem_cons_of_mem _ hy))]

theorem chatHistory_append (lp : SupervisorLoop) (m : SupervisorChatMessage) :
    (lp.appendChatMessage m).chatHistory =
      pushChatList lp.chatHistory m DEFAULT_CHAT_HISTORY_LIMIT := rfl

theorem pushChatList_fresh (history : List SupervisorChatMessage)
    (m : SupervisorChatMessage) (max_items : Nat)
    (hfresh : ∀ x ∈ history, x.id ≠ m.id)
    (hlen : history.length + 1 ≤ max_items) :
    pushChatList history m max_items = m :: history := by
  simp only [pushChatList]
  rw [removeFirstBy_eq_self _ _ (fun x hx => by simp [hfresh x hx])]
  rw [if_neg (by simp only [List.length_cons]; omega)]

set_option maxRecDepth 2000 in
/-- C8 (amended).  For every command that is non-empty after trimming,
`supervisor_chat_send_core` never returns the executor's error to the caller:
it appends a User message carrying the TRIMMED operator text and then one
System message, and returns the full history.  A failing SLASH command becomes
a System text `Error: {error}` with the `/help` hint, while a failing
free-form command becomes `Unable to route chat message: {error}`. -/
theorem chat_send_transaction (lp : SupervisorLoop)
    (slashExec freeformExec : String → Except String String)
    (command : String) (received_at_ms now_ms : Int)
    (user_uuid system_uuid : String)
    (hne : (rustTrim command).isEmpty = false)
    (hfresh_user : ∀ m ∈ lp.chatHistory,
      m.id ≠ "chat-user-" ++ toString received_at_ms ++ "-" ++ user_uuid)
    (hfresh_system : ∀ m ∈ lp.chatHistory,
      m.id ≠ "chat-system-" ++ toString received_at_ms ++ "-" ++ system_uuid)
    (hids : ("chat-user-" ++ toString received_at_ms ++ "-" ++ user_uuid : String) ≠
      "chat-system-" ++ toString received_at_ms ++ "-" ++ system_uuid)
    (hlen : lp.chatHistory.length + 2 ≤ DEFAULT_CHAT_HISTORY_LIMIT) :
    ∃ result, supervisor_chat_send_core lp slashExec freeformExec command
        received_at_ms user_uuid system_uuid now_ms = .ok result ∧
      result.2 =
        { id := "chat-system-" ++ toString received_at_ms ++ "-" ++ system_uuid,
          role := .system,
          text := execute_supervisor_chat_command slashExec freeformExec
            (rustTrim command),
          created_at_ms := now_ms } ::
        { id := "chat-user-" ++ toString received_at_ms ++ "-" ++ user_uuid,
          role := .user,
          text := rustTrim command,
          created_at_ms := received_at_ms } :: lp.chatHistory ∧
      result.2 = result.1.chatHistory ∧
      (∀ e, slashExec (rustTrim command) = .error e →
        (rustTrim command).data.head? = some '/' →
        execute_supervisor_chat_command slashExec freeformExec (rustTrim command) =
          "Error: " ++ e ++ "\nRun `/help` for command usage.") ∧
      (∀ e, freeformExec (rustTrim command) = .error e →
        ¬ ((rustTrim command).data.head? = some '/') →
        execute_supervisor_chat_command slashExec freeformExec (rustTrim command) =
          "Unable to route chat message: " ++ e) := by
  have hu : (lp.appendChatMessage
      { id := "chat-user-" ++ toString received_at_ms ++ "-" ++ user_uuid,
        role := .user,
        text := rustTrim command,
        created_at_ms := received_at_ms }).chatHistory =
      { id := "chat-user-" ++ toString received_at_ms ++ "-" ++ user_uuid,
        role := SupervisorChatMessageRole.user,
        text := rustTrim command,
        created_at_ms := received_at_ms } :: lp.chatHistory := by
    rw [chatHistory_append]
    exact pushChatList_fresh _ _ _ (fun x hx => hfresh_user x hx) (by omega)
  simp only [supervisor_chat_send_core]
  rw [if_neg (by simp [hne])]
  refine ⟨_, rfl, ?_, rfl, ?_, ?_⟩
  · rw [chatHistory_append, hu]
    refine pushChatList_fresh _ _ _ ?_ ?_
    · intro x hx
      rcases List.mem_cons.mp hx with rfl | hx'
      · exact hids
      · exact hfresh_system x hx'
    · simp only [List.length_cons]
      omega
  · intro e he hsl
    simp only [execute_supervisor_chat_command]
    rw [if_pos hsl, he]
  · intro e he hsl
    simp only [execute_supervisor_chat_command]
    rw [if_neg hsl, he]

abbrev c8Loop : SupervisorLoop := {}

/-- Counterexample to C8 as stated: for the raw command `"  deploy now  "`
whose free-form execution fails, the committed User message carries the
trimmed text (not the operator's raw text), and the System message is the
`Unable to route chat message: ...` wrapping — without the `Error:` prefix and
without any `/help` hint. -/
theorem chat_send_transaction_counterexample :
    (supervisor_chat_send_core c8Loop (fun c => .ok c)
        (fun _ => .error "no available workspace")
        "  deploy now  " 5 "u1" "s1" 6).map Prod.snd =
      .ok [ { id := "chat-system-5-s1", role := .system,
              text := "Unable to route chat message: no available workspace",
              created_at_ms := 6 },
            { id := "chat-user-5-u1", role := .user,
              text := "deploy now", created_at_ms := 5 } ] ∧
    ("deploy now" : String) ≠ "  deploy now  " ∧
    startsWithL ("Error:".data)
      ("Unable to route chat message: no available workspace".data) = false ∧
    rustContains "Unable to route chat message: no available workspace"
      "/help" = false := by
  refine ⟨by decide, by decide, by decide, by decide⟩

/-- Witness for the amended C8 at a concrete input: an unknown slash command
is committed as a trimmed User message plus an `Error: ...` System message,
and the full history is returned. -/
theorem chat_send_transaction_witness :
    ∃ result, supervisor_chat_send_core ({} : SupervisorLoop)
        (fun _ => .error "unknown command") (fun c => .ok c)
        " /bogus " 5 "u1" "s1" 6 = .ok result ∧
      result.2 =
        [ { id := "chat-system-5-s1", role := .system,
            text := "Error: unknown command\nRun `/help` for command usage.",
            created_at_ms := 6 },
          { id := "chat-user-5-u1", role := .user,
            text := "/bogus", created_at_ms := 5 } ] := by
  obtain ⟨result, hok, hhist, _, hwrap, _⟩ :=
    chat_send_transaction ({} : SupervisorLoop)
      (fun _ => .error "unknown command") (fun c => .ok c)
      " /bogus " 5 6 "u1" "s1"
      (by decide) (by simp [SupervisorLoop.chatHistory])
      (by simp [SupervisorLoop.chatHistory]) (by decide) (by decide)
  refine ⟨result, hok, ?_⟩
  rw [hhist, hwrap "unknown command" (by decide) (by decide)]
  rfl

end CodexMonitor
